import Mathlib

/-!
Verification development for the type-description module of a documentation
generator (`ts_type.rs` and `type_alias.rs`): conversion of parsed TypeScript
type-expression syntax into a canonical serializable model (`TsTypeDef`),
best-effort initializer type inference, and precedence-aware rendering.

The syntactic input domain (a subset of the swc AST actually consumed by the
converter) is embedded in namespace `swc`.  Source positions (`Span`) are
modelled as natural numbers ordered like byte offsets; `f64` literal values
are modelled as integers together with their printed text, since the module
stores and prints them but never computes with them.  Opaque collaborator
crates that are outside the given fragment (`crate::params`,
`crate::ts_type_param`, `crate::display`, `crate::colors`,
`crate::interface::expr_to_name`) are modelled from the specification, each
marked `Modelled from the spec:` at its definition.
-/

set_option maxHeartbeats 2000000

/-- Source-position key of a syntax node.  The swc `Span` is a byte range
ordered lexicographically; only its ordering is ever used (to merge template
segments), so it is modelled as a single offset. -/
abbrev Span := Nat

namespace swc

/-- Keyword kinds of the swc `TsKeywordType` node. -/
inductive TsKeywordTypeKind where
  | TsAnyKeyword | TsUnknownKeyword | TsNumberKeyword | TsObjectKeyword
  | TsBooleanKeyword | TsBigIntKeyword | TsStringKeyword | TsSymbolKeyword
  | TsVoidKeyword | TsUndefinedKeyword | TsNullKeyword | TsNeverKeyword
  | TsIntrinsicKeyword
  deriving DecidableEq

/-- Member name of a qualified name: a plain identifier or a private name. -/
inductive TsMemberName where
  | Ident (sym : String)
  | PrivateName (sym : String)
  deriving DecidableEq

/-- Entity name: identifier or dot-qualified name. -/
inductive TsEntityName where
  | Ident (sym : String)
  | TsQualifiedName (left : TsEntityName) (right : TsMemberName)
  deriving DecidableEq

/-- Tri-state modifier of mapped types (`readonly` / `+readonly` / `-readonly`,
similarly for `?`). -/
inductive TruePlusMinus where
  | True | Plus | Minus
  deriving DecidableEq

/-- Type operator of `TsTypeOperator`. -/
inductive TsTypeOperatorOp where
  | KeyOf | Unique | ReadOnly
  deriving DecidableEq

/-- Rust `op.as_str()` for the type operator. -/
def TsTypeOperatorOp.as_str : TsTypeOperatorOp → String
  | .KeyOf => "keyof"
  | .Unique => "unique"
  | .ReadOnly => "readonly"

/-- Subject of a type predicate: the receiver or a named parameter. -/
inductive TsThisTypeOrIdent where
  | TsThisType
  | Ident (sym : String)
  deriving DecidableEq

/-- Method kind tag reused by the doc model for type-literal members. -/
inductive MethodKind where
  | Method | Getter | Setter
  deriving DecidableEq

/-- swc numeric literal node.  The source stores the value as an `f64`; the
module never computes with it, it only stores it and prints it with
`format!("{}", value)`, so the value is modelled as an integer whose printed
form is `toString`. -/
structure Number where
  value : Int
  deriving DecidableEq

/-- swc string literal node (`value` is the unquoted content). -/
structure Str where
  value : String
  deriving DecidableEq

/-- swc boolean literal node. -/
structure BoolLit where
  value : Bool
  deriving DecidableEq

/-- swc big-integer literal node; the module only uses `value.to_string()`. -/
structure BigIntLit where
  value : Int
  deriving DecidableEq

/-- One literal text chunk of a template literal, with its source span and raw
text. -/
structure TplElement where
  span : Span
  raw : String
  deriving DecidableEq

/-- Modelled from the spec: binding patterns are consumed only by the opaque
parameter-descriptor builder `pat_to_param_def` of `crate::params`, which is
outside the given fragment; a pattern is modelled as a carrier of the
parameter's display text. -/
structure Pat where
  name : String
  deriving DecidableEq

/-- Modelled from the spec: function-signature parameters are consumed only by
the opaque builder `ts_fn_param_to_param_def` of `crate::params`, outside the
given fragment; modelled as a carrier of the parameter's display text. -/
structure TsFnParam where
  name : String
  deriving DecidableEq

/-- swc function parameter: decorators and span are never read by this module,
only the pattern. -/
structure Param where
  pat : Pat
  deriving DecidableEq

/-- swc expression literal (`Lit`).  `Null` and `JSXText` are present in the
domain but outside the inference catalog. -/
inductive Lit where
  | Num (n : Number)
  | Str (s : Str)
  | Bool (b : BoolLit)
  | BigInt (b : BigIntLit)
  | Regex (exp : String)
  | Null
  | JSXText
  deriving DecidableEq

end swc

namespace swc

mutual

/-- swc type-expression node: the closed input domain of the converter, one
variant per syntactic form.  Span fields mirror the swc structs; wrapper
structs whose extra fields the module never reads (`TsTypeAnn`,
`TsTypeParamInstantiation`) are flattened to their payload. -/
inductive TsType where
  | TsKeywordType (span : Span) (kind : TsKeywordTypeKind)
  | TsThisType (span : Span)
  | TsFnOrConstructorType (f : TsFnOrConstructorType)
  | TsTypeRef (span : Span) (type_name : TsEntityName)
      (type_params : Option (List TsType))
  | TsTypeQuery (span : Span) (expr_name : TsTypeQueryExpr)
  | TsTypeLit (span : Span) (members : List TsTypeElement)
  | TsArrayType (span : Span) (elem_type : TsType)
  | TsTupleType (span : Span) (elem_types : List TsTupleElement)
  | TsOptionalType (span : Span) (type_ann : TsType)
  | TsRestType (span : Span) (type_ann : TsType)
  | TsUnionOrIntersectionType (u : TsUnionOrIntersectionType)
  | TsConditionalType (span : Span) (check_type extends_type true_type false_type : TsType)
  | TsInferType (span : Span) (type_param : TsTypeParam)
  | TsParenthesizedType (span : Span) (type_ann : TsType)
  | TsTypeOperator (span : Span) (op : TsTypeOperatorOp) (type_ann : TsType)
  | TsIndexedAccessType (span : Span) (readonly : Bool) (obj_type index_type : TsType)
  | TsMappedType (span : Span) (readonly : Option TruePlusMinus)
      (type_param : TsTypeParam) (name_type : Option TsType)
      (optional : Option TruePlusMinus) (type_ann : Option TsType)
  | TsLitType (span : Span) (lit : TsLit)
  | TsTypePredicate (span : Span) (asserts : Bool)
      (param_name : TsThisTypeOrIdent) (type_ann : Option TsType)
  | TsImportType (span : Span) (arg : Str) (qualifier : Option TsEntityName)
      (type_args : Option (List TsType))

/-- Function or constructor type form. -/
inductive TsFnOrConstructorType where
  | TsFnType (span : Span) (params : List TsFnParam)
      (type_params : Option TsTypeParamDecl) (type_ann : TsType)
  | TsConstructorType (span : Span) (params : List TsFnParam)
      (type_params : Option TsTypeParamDecl) (type_ann : TsType)

/-- Union or intersection form, each carrying its member list in declared
order. -/
inductive TsUnionOrIntersectionType where
  | TsUnionType (span : Span) (types : List TsType)
  | TsIntersectionType (span : Span) (types : List TsType)

/-- Target of a `typeof` query: an entity name or an import form (of which the
module reads only the specifier string). -/
inductive TsTypeQueryExpr where
  | TsEntityName (e : TsEntityName)
  | Import (span : Span) (arg : Str) (qualifier : Option TsEntityName)
      (type_args : Option (List TsType))

/-- swc type-expression literal (`TsLit`), including the template form with
its separately-stored quasis and interpolated types. -/
inductive TsLit where
  | Number (n : swc.Number)
  | Str (s : swc.Str)
  | Tpl (span : Span) (types : List TsType) (quasis : List TplElement)
  | Bool (b : BoolLit)
  | BigInt (b : BigIntLit)

/-- Generic type parameter declaration (a name with optional constraint and
default); consumed by the modelled collaborator
`maybe_type_param_decl_to_type_param_defs`. -/
inductive TsTypeParam where
  | mk (name : String) (constraint : Option TsType) (default : Option TsType)

/-- A generic-parameter list `<T, U extends V, ...>`. -/
inductive TsTypeParamDecl where
  | mk (params : List TsTypeParam)

/-- One member of a structural type literal: the six-plus-one syntactic
categories classified by the signature extractor. -/
inductive TsTypeElement where
  | TsMethodSignature (key : Expr) (computed optional : Bool)
      (params : List TsFnParam) (type_ann : Option TsType)
      (type_params : Option TsTypeParamDecl)
  | TsGetterSignature (key : Expr) (computed optional : Bool)
      (type_ann : Option TsType)
  | TsSetterSignature (key : Expr) (computed optional : Bool)
      (param : TsFnParam)
  | TsPropertySignature (key : Expr) (computed optional readonly : Bool)
      (params : List TsFnParam) (type_ann : Option TsType)
      (type_params : Option TsTypeParamDecl)
  | TsCallSignatureDecl (params : List TsFnParam) (type_ann : Option TsType)
      (type_params : Option TsTypeParamDecl)
  | TsIndexSignature (readonly : Bool) (params : List TsFnParam)
      (type_ann : Option TsType)
  | TsConstructSignatureDecl (params : List TsFnParam)
      (type_ann : Option TsType) (type_params : Option TsTypeParamDecl)

/-- Tuple element; its optional label is never read by the converter, which
uses only `.ty`, so only that field is modelled. -/
inductive TsTupleElement where
  | mk (ty : TsType)

/-- swc expression node: the initializer shapes consumed by inference, plus
representative shapes outside the catalog (`Ident`, `Member`, `Bin`,
`Object`, `This`). -/
inductive Expr where
  | Array (a : ArrayLit)
  | Arrow (a : ArrowExpr)
  | Fn (f : FnExpr)
  | Lit (l : swc.Lit)
  | New (n : NewExpr)
  | Tpl (t : Tpl)
  | TsConstAssertion (a : TsConstAssertion)
  | Call (c : CallExpr)
  | Ident (sym : String)
  | Member (obj : Expr) (prop : String)
  | Bin (left right : Expr)
  | Object (span : Span)
  | This (span : Span)

/-- Array literal; an element is `none` for an elision hole. -/
inductive ArrayLit where
  | mk (span : Span) (elems : List (Option ExprOrSpread))

/-- An array-literal element: an expression with an optional spread marker
(the marker's span, when present). -/
inductive ExprOrSpread where
  | mk (spread : Option Span) (expr : Expr)

/-- Arrow function expression.  The body is never read by this module and is
modelled as an opaque tag. -/
inductive ArrowExpr where
  | mk (span : Span) (params : List Pat) (body : Nat)
      (return_type : Option TsType) (type_params : Option TsTypeParamDecl)

/-- Function expression: optional name plus the function node. -/
inductive FnExpr where
  | mk (ident : Option String) (function : Function)

/-- Function node.  The body is never read by this module and is modelled as
an opaque tag. -/
inductive Function where
  | mk (params : List Param) (body : Nat) (return_type : Option TsType)
      (type_params : Option TsTypeParamDecl)

/-- `new` expression; arguments are never read, only the callee and explicit
type arguments. -/
inductive NewExpr where
  | mk (span : Span) (callee : Expr) (type_args : Option (List TsType))

/-- Template literal expression with interpolated expressions and quasis. -/
inductive Tpl where
  | mk (span : Span) (exprs : List Expr) (quasis : List TplElement)

/-- `expr as const` assertion. -/
inductive TsConstAssertion where
  | mk (span : Span) (expr : Expr)

/-- Callee of a call expression. -/
inductive Callee where
  | Super
  | Import
  | Expr (e : Expr)

/-- Call expression; arguments and type arguments are never read by the
inference table, only the callee. -/
inductive CallExpr where
  | mk (span : Span) (callee : Callee)

end

/-- Variable declarator: binding name, optional initializer, definite flag.
Only `init` is read by `infer_simple_ts_type_from_var_decl`. -/
structure VarDeclarator where
  name : Pat
  init : Option Expr
  definite : Bool

end swc

/-- Discriminant of the canonical type node, one tag per syntactic form. -/
inductive TsTypeDefKind where
  | Keyword | Literal | TypeRef | Union | Intersection | Array | Tuple
  | TypeOperator | Parenthesized | Rest | Optional | TypeQuery | This
  | FnOrConstructor | Conditional | Infer | IndexedAccess | Mapped
  | TypeLiteral | TypePredicate | ImportType
  deriving DecidableEq

/-- Category tag of a literal node. -/
inductive LiteralDefKind where
  | Number | String | Template | Boolean | BigInt
  deriving DecidableEq

/-- Modelled from the spec: the parameter descriptor produced by the opaque
builders of `crate::params` (outside the given fragment); modelled as a
carrier of its rendered text. -/
structure ParamDef where
  repr : String
  deriving DecidableEq

/-- Subject of a canonical type-predicate node. -/
inductive ThisOrIdent where
  | This
  | Identifier (name : String)
  deriving DecidableEq

mutual

/-- The canonical type node: a flat record with a display string `repr`, an
optional `kind` tag and one `Option` payload field per kind, mirroring the
serializable struct of the source.  Field order follows the source; the
source field `this` is named `this_` here. -/
inductive TsTypeDef where
  | mk (repr : String)
      (kind : Option TsTypeDefKind)
      (keyword : Option String)
      (literal : Option LiteralDef)
      (type_ref : Option TsTypeRefDef)
      (union : Option (List TsTypeDef))
      (intersection : Option (List TsTypeDef))
      (array : Option TsTypeDef)
      (tuple : Option (List TsTypeDef))
      (type_operator : Option TsTypeOperatorDef)
      (parenthesized : Option TsTypeDef)
      (rest : Option TsTypeDef)
      (optional : Option TsTypeDef)
      (type_query : Option String)
      (this_ : Option Bool)
      (fn_or_constructor : Option TsFnOrConstructorDef)
      (conditional_type : Option TsConditionalDef)
      (infer : Option TsInferDef)
      (indexed_access : Option TsIndexedAccessDef)
      (mapped_type : Option TsMappedTypeDef)
      (type_literal : Option TsTypeLiteralDef)
      (type_predicate : Option TsTypePredicateDef)
      (import_type : Option TsImportTypeDef)

/-- Literal payload: category tag plus the one matching scalar, or, for the
template category, the merged ordered segment sequence. -/
inductive LiteralDef where
  | mk (kind : LiteralDefKind) (number : Option Int) (string : Option String)
      (ts_types : Option (List TsTypeDef)) (boolean : Option Bool)

/-- Type-reference payload: optional instantiated argument list plus the
dot-joined name. -/
inductive TsTypeRefDef where
  | mk (type_params : Option (List TsTypeDef)) (type_name : String)

/-- Type-operator payload. -/
inductive TsTypeOperatorDef where
  | mk (operator : String) (ts_type : TsTypeDef)

/-- Function-or-constructor payload: constructor flag, return type,
parameters, generic parameters. -/
inductive TsFnOrConstructorDef where
  | mk (constructor : Bool) (ts_type : TsTypeDef) (params : List ParamDef)
      (type_params : List TsTypeParamDef)

/-- Modelled from the spec: the generic-type-parameter descriptor produced by
the opaque builder of `crate::ts_type_param` (outside the given fragment);
modelled as the parameter name with its converted optional constraint and
default, which is exactly what the renderer of this module reads. -/
inductive TsTypeParamDef where
  | mk (name : String) (constraint : Option TsTypeDef)
      (default : Option TsTypeDef)

/-- Conditional-type payload. -/
inductive TsConditionalDef where
  | mk (check_type extends_type true_type false_type : TsTypeDef)

/-- Infer payload. -/
inductive TsInferDef where
  | mk (type_param : TsTypeParamDef)

/-- Import-type payload. -/
inductive TsImportTypeDef where
  | mk (specifier : String) (qualifier : Option String)
      (type_params : Option (List TsTypeDef))

/-- Indexed-access payload. -/
inductive TsIndexedAccessDef where
  | mk (readonly : Bool) (obj_type index_type : TsTypeDef)

/-- Mapped-type payload with tri-state modifiers. -/
inductive TsMappedTypeDef where
  | mk (readonly : Option swc.TruePlusMinus) (type_param : TsTypeParamDef)
      (name_type : Option TsTypeDef) (optional : Option swc.TruePlusMinus)
      (ts_type : Option TsTypeDef)

/-- Method entry of a structural type literal (also used for getters, setters
and construct signatures). -/
inductive LiteralMethodDef where
  | mk (name : String) (kind : swc.MethodKind) (params : List ParamDef)
      (computed optional : Bool) (return_type : Option TsTypeDef)
      (type_params : List TsTypeParamDef)

/-- Property entry of a structural type literal. -/
inductive LiteralPropertyDef where
  | mk (name : String) (params : List ParamDef)
      (readonly computed optional : Bool) (ts_type : Option TsTypeDef)
      (type_params : List TsTypeParamDef)

/-- Call-signature entry of a structural type literal. -/
inductive LiteralCallSignatureDef where
  | mk (params : List ParamDef) (ts_type : Option TsTypeDef)
      (type_params : List TsTypeParamDef)

/-- Index-signature entry of a structural type literal. -/
inductive LiteralIndexSignatureDef where
  | mk (readonly : Bool) (params : List ParamDef)
      (ts_type : Option TsTypeDef)

/-- Structural type literal decomposed into its four signature sequences. -/
inductive TsTypeLiteralDef where
  | mk (methods : List LiteralMethodDef)
      (properties : List LiteralPropertyDef)
      (call_signatures : List LiteralCallSignatureDef)
      (index_signatures : List LiteralIndexSignatureDef)

/-- Type-predicate payload: asserts flag, subject, optional asserted type. -/
inductive TsTypePredicateDef where
  | mk (asserts : Bool) (param : ThisOrIdent) (type : Option TsTypeDef)

end

-- Field accessors of the flat canonical record.
def TsTypeDef.repr : TsTypeDef → String
  | ⟨a, _, _, _, _, _, _, _, _, _, _, _, _, _, _, _, _, _, _, _, _, _, _⟩ => a

def TsTypeDef.kind : TsTypeDef → Option TsTypeDefKind
  | ⟨_, a, _, _, _, _, _, _, _, _, _, _, _, _, _, _, _, _, _, _, _, _, _⟩ => a

def TsTypeDef.keyword : TsTypeDef → Option String
  | ⟨_, _, a, _, _, _, _, _, _, _, _, _, _, _, _, _, _, _, _, _, _, _, _⟩ => a

def TsTypeDef.literal : TsTypeDef → Option LiteralDef
  | ⟨_, _, _, a, _, _, _, _, _, _, _, _, _, _, _, _, _, _, _, _, _, _, _⟩ => a

def TsTypeDef.type_ref : TsTypeDef → Option TsTypeRefDef
  | ⟨_, _, _, _, a, _, _, _, _, _, _, _, _, _, _, _, _, _, _, _, _, _, _⟩ => a

def TsTypeDef.union : TsTypeDef → Option (List TsTypeDef)
  | ⟨_, _, _, _, _, a, _, _, _, _, _, _, _, _, _, _, _, _, _, _, _, _, _⟩ => a

def TsTypeDef.intersection : TsTypeDef → Option (List TsTypeDef)
  | ⟨_, _, _, _, _, _, a, _, _, _, _, _, _, _, _, _, _, _, _, _, _, _, _⟩ => a

def TsTypeDef.array : TsTypeDef → Option TsTypeDef
  | ⟨_, _, _, _, _, _, _, a, _, _, _, _, _, _, _, _, _, _, _, _, _, _, _⟩ => a

def TsTypeDef.tuple : TsTypeDef → Option (List TsTypeDef)
  | ⟨_, _, _, _, _, _, _, _, a, _, _, _, _, _, _, _, _, _, _, _, _, _, _⟩ => a

def TsTypeDef.type_operator : TsTypeDef → Option TsTypeOperatorDef
  | ⟨_, _, _, _, _, _, _, _, _, a, _, _, _, _, _, _, _, _, _, _, _, _, _⟩ => a

def TsTypeDef.parenthesized : TsTypeDef → Option TsTypeDef
  | ⟨_, _, _, _, _, _, _, _, _, _, a, _, _, _, _, _, _, _, _, _, _, _, _⟩ => a

def TsTypeDef.rest : TsTypeDef → Option TsTypeDef
  | ⟨_, _, _, _, _, _, _, _, _, _, _, a, _, _, _, _, _, _, _, _, _, _, _⟩ => a

def TsTypeDef.optional : TsTypeDef → Option TsTypeDef
  | ⟨_, _, _, _, _, _, _, _, _, _, _, _, a, _, _, _, _, _, _, _, _, _, _⟩ => a

def TsTypeDef.type_query : TsTypeDef → Option String
  | ⟨_, _, _, _, _, _, _, _, _, _, _, _, _, a, _, _, _, _, _, _, _, _, _⟩ => a

def TsTypeDef.this_ : TsTypeDef → Option Bool
  | ⟨_, _, _, _, _, _, _, _, _, _, _, _, _, _, a, _, _, _, _, _, _, _, _⟩ => a

def TsTypeDef.fn_or_constructor : TsTypeDef → Option TsFnOrConstructorDef
  | ⟨_, _, _, _, _, _, _, _, _, _, _, _, _, _, _, a, _, _, _, _, _, _, _⟩ => a

def TsTypeDef.conditional_type : TsTypeDef → Option TsConditionalDef
  | ⟨_, _, _, _, _, _, _, _, _, _, _, _, _, _, _, _, a, _, _, _, _, _, _⟩ => a

def TsTypeDef.infer : TsTypeDef → Option TsInferDef
  | ⟨_, _, _, _, _, _, _, _, _, _, _, _, _, _, _, _, _, a, _, _, _, _, _⟩ => a

def TsTypeDef.indexed_access : TsTypeDef → Option TsIndexedAccessDef
  | ⟨_, _, _, _, _, _, _, _, _, _, _, _, _, _, _, _, _, _, a, _, _, _, _⟩ => a

def TsTypeDef.mapped_type : TsTypeDef → Option TsMappedTypeDef
  | ⟨_, _, _, _, _, _, _, _, _, _, _, _, _, _, _, _, _, _, _, a, _, _, _⟩ => a

def TsTypeDef.type_literal : TsTypeDef → Option TsTypeLiteralDef
  | ⟨_, _, _, _, _, _, _, _, _, _, _, _, _, _, _, _, _, _, _, _, a, _, _⟩ => a

def TsTypeDef.type_predicate : TsTypeDef → Option TsTypePredicateDef
  | ⟨_, _, _, _, _, _, _, _, _, _, _, _, _, _, _, _, _, _, _, _, _, a, _⟩ => a

def TsTypeDef.import_type : TsTypeDef → Option TsImportTypeDef
  | ⟨_, _, _, _, _, _, _, _, _, _, _, _, _, _, _, _, _, _, _, _, _, _, a⟩ => a

/-- Rust `TsTypeDef::default()`: empty repr, no kind, every payload `none`. -/
def TsTypeDef.default : TsTypeDef :=
  ⟨"", none, none, none, none, none, none, none, none, none, none, none, none, none, none, none, none, none, none, none, none, none, none⟩

/-- Builds a `Keyword` node: `repr`, the kind tag and the `keyword` payload;
every other field defaults to `none` (Rust struct-update `..Default::default()`). -/
def TsTypeDef.mkKeyword (r : String) (p : String) : TsTypeDef :=
  ⟨r, some .Keyword, some p, none, none, none, none, none, none, none, none, none, none, none, none, none, none, none, none, none, none, none, none⟩

/-- Builds a `Literal` node: `repr`, the kind tag and the `literal` payload;
every other field defaults to `none` (Rust struct-update `..Default::default()`). -/
def TsTypeDef.mkLiteral (r : String) (p : LiteralDef) : TsTypeDef :=
  ⟨r, some .Literal, none, some p, none, none, none, none, none, none, none, none, none, none, none, none, none, none, none, none, none, none, none⟩

/-- Builds a `TypeRef` node: `repr`, the kind tag and the `type_ref` payload;
every other field defaults to `none` (Rust struct-update `..Default::default()`). -/
def TsTypeDef.mkTypeRef (r : String) (p : TsTypeRefDef) : TsTypeDef :=
  ⟨r, some .TypeRef, none, none, some p, none, none, none, none, none, none, none, none, none, none, none, none, none, none, none, none, none, none⟩

/-- Builds a `Union` node: `repr`, the kind tag and the `union` payload;
every other field defaults to `none` (Rust struct-update `..Default::default()`). -/
def TsTypeDef.mkUnion (r : String) (p : List TsTypeDef) : TsTypeDef :=
  ⟨r, some .Union, none, none, none, some p, none, none, none, none, none, none, none, none, none, none, none, none, none, none, none, none, none⟩

/-- Builds a `Intersection` node: `repr`, the kind tag and the `intersection` payload;
every other field defaults to `none` (Rust struct-update `..Default::default()`). -/
def TsTypeDef.mkIntersection (r : String) (p : List TsTypeDef) : TsTypeDef :=
  ⟨r, some .Intersection, none, none, none, none, some p, none, none, none, none, none, none, none, none, none, none, none, none, none, none, none, none⟩

/-- Builds a `Array` node: `repr`, the kind tag and the `array` payload;
every other field defaults to `none` (Rust struct-update `..Default::default()`). -/
def TsTypeDef.mkArray (r : String) (p : TsTypeDef) : TsTypeDef :=
  ⟨r, some .Array, none, none, none, none, none, some p, none, none, none, none, none, none, none, none, none, none, none, none, none, none, none⟩

/-- Builds a `Tuple` node: `repr`, the kind tag and the `tuple` payload;
every other field defaults to `none` (Rust struct-update `..Default::default()`). -/
def TsTypeDef.mkTuple (r : String) (p : List TsTypeDef) : TsTypeDef :=
  ⟨r, some .Tuple, none, none, none, none, none, none, some p, none, none, none, none, none, none, none, none, none, none, none, none, none, none⟩

/-- Builds a `TypeOperator` node: `repr`, the kind tag and the `type_operator` payload;
every other field defaults to `none` (Rust struct-update `..Default::default()`). -/
def TsTypeDef.mkTypeOperator (r : String) (p : TsTypeOperatorDef) : TsTypeDef :=
  ⟨r, some .TypeOperator, none, none, none, none, none, none, none, some p, none, none, none, none, none, none, none, none, none, none, none, none, none⟩

/-- Builds a `Parenthesized` node: `repr`, the kind tag and the `parenthesized` payload;
every other field defaults to `none` (Rust struct-update `..Default::default()`). -/
def TsTypeDef.mkParenthesized (r : String) (p : TsTypeDef) : TsTypeDef :=
  ⟨r, some .Parenthesized, none, none, none, none, none, none, none, none, some p, none, none, none, none, none, none, none, none, none, none, none, none⟩

/-- Builds a `Rest` node: `repr`, the kind tag and the `rest` payload;
every other field defaults to `none` (Rust struct-update `..Default::default()`). -/
def TsTypeDef.mkRest (r : String) (p : TsTypeDef) : TsTypeDef :=
  ⟨r, some .Rest, none, none, none, none, none, none, none, none, none, some p, none, none, none, none, none, none, none, none, none, none, none⟩

/-- Builds a `Optional` node: `repr`, the kind tag and the `optional` payload;
every other field defaults to `none` (Rust struct-update `..Default::default()`). -/
def TsTypeDef.mkOptional (r : String) (p : TsTypeDef) : TsTypeDef :=
  ⟨r, some .Optional, none, none, none, none, none, none, none, none, none, none, some p, none, none, none, none, none, none, none, none, none, none⟩

/-- Builds a `TypeQuery` node: `repr`, the kind tag and the `type_query` payload;
every other field defaults to `none` (Rust struct-update `..Default::default()`). -/
def TsTypeDef.mkTypeQuery (r : String) (p : String) : TsTypeDef :=
  ⟨r, some .TypeQuery, none, none, none, none, none, none, none, none, none, none, none, some p, none, none, none, none, none, none, none, none, none⟩

/-- Builds a `This` node: `repr`, the kind tag and the `this_` payload;
every other field defaults to `none` (Rust struct-update `..Default::default()`). -/
def TsTypeDef.mkThis (r : String) (p : Bool) : TsTypeDef :=
  ⟨r, some .This, none, none, none, none, none, none, none, none, none, none, none, none, some p, none, none, none, none, none, none, none, none⟩

/-- Builds a `FnOrConstructor` node: `repr`, the kind tag and the `fn_or_constructor` payload;
every other field defaults to `none` (Rust struct-update `..Default::default()`). -/
def TsTypeDef.mkFnOrConstructor (r : String) (p : TsFnOrConstructorDef) : TsTypeDef :=
  ⟨r, some .FnOrConstructor, none, none, none, none, none, none, none, none, none, none, none, none, none, some p, none, none, none, none, none, none, none⟩

/-- Builds a `Conditional` node: `repr`, the kind tag and the `conditional_type` payload;
every other field defaults to `none` (Rust struct-update `..Default::default()`). -/
def TsTypeDef.mkConditional (r : String) (p : TsConditionalDef) : TsTypeDef :=
  ⟨r, some .Conditional, none, none, none, none, none, none, none, none, none, none, none, none, none, none, some p, none, none, none, none, none, none⟩

/-- Builds a `Infer` node: `repr`, the kind tag and the `infer` payload;
every other field defaults to `none` (Rust struct-update `..Default::default()`). -/
def TsTypeDef.mkInfer (r : String) (p : TsInferDef) : TsTypeDef :=
  ⟨r, some .Infer, none, none, none, none, none, none, none, none, none, none, none, none, none, none, none, some p, none, none, none, none, none⟩

/-- Builds a `IndexedAccess` node: `repr`, the kind tag and the `indexed_access` payload;
every other field defaults to `none` (Rust struct-update `..Default::default()`). -/
def TsTypeDef.mkIndexedAccess (r : String) (p : TsIndexedAccessDef) : TsTypeDef :=
  ⟨r, some .IndexedAccess, none, none, none, none, none, none, none, none, none, none, none, none, none, none, none, none, some p, none, none, none, none⟩

/-- Builds a `Mapped` node: `repr`, the kind tag and the `mapped_type` payload;
every other field defaults to `none` (Rust struct-update `..Default::default()`). -/
def TsTypeDef.mkMapped (r : String) (p : TsMappedTypeDef) : TsTypeDef :=
  ⟨r, some .Mapped, none, none, none, none, none, none, none, none, none, none, none, none, none, none, none, none, none, some p, none, none, none⟩

/-- Builds a `TypeLiteral` node: `repr`, the kind tag and the `type_literal` payload;
every other field defaults to `none` (Rust struct-update `..Default::default()`). -/
def TsTypeDef.mkTypeLiteral (r : String) (p : TsTypeLiteralDef) : TsTypeDef :=
  ⟨r, some .TypeLiteral, none, none, none, none, none, none, none, none, none, none, none, none, none, none, none, none, none, none, some p, none, none⟩

/-- Builds a `TypePredicate` node: `repr`, the kind tag and the `type_predicate` payload;
every other field defaults to `none` (Rust struct-update `..Default::default()`). -/
def TsTypeDef.mkTypePredicate (r : String) (p : TsTypePredicateDef) : TsTypeDef :=
  ⟨r, some .TypePredicate, none, none, none, none, none, none, none, none, none, none, none, none, none, none, none, none, none, none, none, some p, none⟩

/-- Builds a `ImportType` node: `repr`, the kind tag and the `import_type` payload;
every other field defaults to `none` (Rust struct-update `..Default::default()`). -/
def TsTypeDef.mkImportType (r : String) (p : TsImportTypeDef) : TsTypeDef :=
  ⟨r, some .ImportType, none, none, none, none, none, none, none, none, none, none, none, none, none, none, none, none, none, none, none, none, some p⟩

/-- Rust `TsTypeDef::keyword_with_repr`. -/
def TsTypeDef.keyword_with_repr (keyword_str : String) (repr : String) : TsTypeDef :=
  TsTypeDef.mkKeyword repr keyword_str

/-- Rust `TsTypeDef::keyword` (named `keywordDef` here because `keyword` is
the field accessor). -/
def TsTypeDef.keywordDef (keyword_str : String) : TsTypeDef :=
  TsTypeDef.keyword_with_repr keyword_str keyword_str

/-- Rust `TsTypeDef::number_with_repr`. -/
def TsTypeDef.number_with_repr (repr : String) : TsTypeDef :=
  TsTypeDef.keyword_with_repr "number" repr

/-- Rust `TsTypeDef::string_with_repr`. -/
def TsTypeDef.string_with_repr (repr : String) : TsTypeDef :=
  TsTypeDef.keyword_with_repr "string" repr

/-- Rust `TsTypeDef::bool_with_repr`. -/
def TsTypeDef.bool_with_repr (repr : String) : TsTypeDef :=
  TsTypeDef.keyword_with_repr "boolean" repr

/-- Rust `TsTypeDef::bigint_with_repr`. -/
def TsTypeDef.bigint_with_repr (repr : String) : TsTypeDef :=
  TsTypeDef.keyword_with_repr "bigint" repr

/-- Rust private `TsTypeDef::literal` (named `literalDef` here because
`literal` is the field accessor). -/
def TsTypeDef.literalDef (repr : String) (lit : LiteralDef) : TsTypeDef :=
  TsTypeDef.mkLiteral repr lit

/-- Rust `TsTypeDef::number_literal`. -/
def TsTypeDef.number_literal (num : swc.Number) : TsTypeDef :=
  TsTypeDef.literalDef (toString num.value)
    (LiteralDef.mk LiteralDefKind.Number (some num.value) none none none)

/-- Rust `TsTypeDef::string_literal`. -/
def TsTypeDef.string_literal (str_ : swc.Str) : TsTypeDef :=
  TsTypeDef.literalDef str_.value
    (LiteralDef.mk LiteralDefKind.String none (some str_.value) none none)

/-- Rust `TsTypeDef::bool_literal`. -/
def TsTypeDef.bool_literal (bool_ : swc.BoolLit) : TsTypeDef :=
  TsTypeDef.literalDef (toString bool_.value)
    (LiteralDef.mk LiteralDefKind.Boolean none none none (some bool_.value))

/-- Rust `TsTypeDef::bigint_literal`. -/
def TsTypeDef.bigint_literal (bigint_ : swc.BigIntLit) : TsTypeDef :=
  TsTypeDef.literalDef (toString bigint_.value)
    (LiteralDef.mk LiteralDefKind.BigInt none (some (toString bigint_.value)) none none)

/-- Rust `TsTypeDef::regexp`: a reference to the built-in `RegExp` type. -/
def TsTypeDef.regexp (repr : String) : TsTypeDef :=
  TsTypeDef.mkTypeRef repr (TsTypeRefDef.mk none "RegExp")

mutual

/-- Structural equality test on canonical nodes, embedding the derived
`PartialEq` of the source (used by `Vec::contains` during array-literal
inference).  It is proven to decide propositional equality below. -/
def tsTypeDefBeq : TsTypeDef → TsTypeDef → Bool
  | ⟨r, k, kw, li, tr, un, it, ar, tu, tow, pa, re, op, tq, th, fc, co, inf, ia, mt, tl, tp, im⟩,
    ⟨r', k', kw', li', tr', un', it', ar', tu', tow', pa', re', op', tq', th', fc', co', inf', ia', mt', tl', tp', im'⟩ =>
    decide (r = r') && decide (k = k') && decide (kw = kw') &&
    optLiteralDefBeq li li' && optTsTypeRefDefBeq tr tr' &&
    optListTsTypeDefBeq un un' && optListTsTypeDefBeq it it' &&
    optTsTypeDefBeq ar ar' && optListTsTypeDefBeq tu tu' &&
    optTsTypeOperatorDefBeq tow tow' && optTsTypeDefBeq pa pa' &&
    optTsTypeDefBeq re re' && optTsTypeDefBeq op op' &&
    decide (tq = tq') && decide (th = th') &&
    optTsFnOrConstructorDefBeq fc fc' && optTsConditionalDefBeq co co' &&
    optTsInferDefBeq inf inf' && optTsIndexedAccessDefBeq ia ia' &&
    optTsMappedTypeDefBeq mt mt' && optTsTypeLiteralDefBeq tl tl' &&
    optTsTypePredicateDefBeq tp tp' && optTsImportTypeDefBeq im im'
termination_by structural t => t

/-- Structural equality on an optional canonical node. -/
def optTsTypeDefBeq : Option TsTypeDef → Option TsTypeDef → Bool
  | none, none => true
  | some a, some b => tsTypeDefBeq a b
  | _, _ => false
termination_by structural t => t

/-- Structural equality on a list of canonical nodes. -/
def listTsTypeDefBeq : List TsTypeDef → List TsTypeDef → Bool
  | [], [] => true
  | a :: as, b :: bs => tsTypeDefBeq a b && listTsTypeDefBeq as bs
  | _, _ => false
termination_by structural t => t

/-- Structural equality on an optional list of canonical nodes. -/
def optListTsTypeDefBeq : Option (List TsTypeDef) → Option (List TsTypeDef) → Bool
  | none, none => true
  | some a, some b => listTsTypeDefBeq a b
  | _, _ => false
termination_by structural t => t

/-- Structural equality on literal payloads. -/
def literalDefBeq : LiteralDef → LiteralDef → Bool
  | ⟨k, n, s, t, b⟩, ⟨k', n', s', t', b'⟩ =>
    decide (k = k') && decide (n = n') && decide (s = s') &&
    optListTsTypeDefBeq t t' && decide (b = b')
termination_by structural t => t

/-- Structural equality on optional literal payloads. -/
def optLiteralDefBeq : Option LiteralDef → Option LiteralDef → Bool
  | none, none => true
  | some a, some b => literalDefBeq a b
  | _, _ => false
termination_by structural t => t

/-- Structural equality on type-reference payloads. -/
def tsTypeRefDefBeq : TsTypeRefDef → TsTypeRefDef → Bool
  | ⟨tp, n⟩, ⟨tp', n'⟩ => optListTsTypeDefBeq tp tp' && decide (n = n')
termination_by structural t => t

/-- Structural equality on optional type-reference payloads. -/
def optTsTypeRefDefBeq : Option TsTypeRefDef → Option TsTypeRefDef → Bool
  | none, none => true
  | some a, some b => tsTypeRefDefBeq a b
  | _, _ => false
termination_by structural t => t

/-- Structural equality on type-operator payloads. -/
def tsTypeOperatorDefBeq : TsTypeOperatorDef → TsTypeOperatorDef → Bool
  | ⟨o, t⟩, ⟨o', t'⟩ => decide (o = o') && tsTypeDefBeq t t'
termination_by structural t => t

/-- Structural equality on optional type-operator payloads. -/
def optTsTypeOperatorDefBeq : Option TsTypeOperatorDef → Option TsTypeOperatorDef → Bool
  | none, none => true
  | some a, some b => tsTypeOperatorDefBeq a b
  | _, _ => false
termination_by structural t => t

/-- Structural equality on function-or-constructor payloads. -/
def tsFnOrConstructorDefBeq : TsFnOrConstructorDef → TsFnOrConstructorDef → Bool
  | ⟨c, t, p, tps⟩, ⟨c', t', p', tps'⟩ =>
    decide (c = c') && tsTypeDefBeq t t' && decide (p = p') &&
    listTsTypeParamDefBeq tps tps'
termination_by structural t => t

/-- Structural equality on optional function-or-constructor payloads. -/
def optTsFnOrConstructorDefBeq : Option TsFnOrConstructorDef → Option TsFnOrConstructorDef → Bool
  | none, none => true
  | some a, some b => tsFnOrConstructorDefBeq a b
  | _, _ => false
termination_by structural t => t

/-- Structural equality on generic-parameter descriptors. -/
def tsTypeParamDefBeq : TsTypeParamDef → TsTypeParamDef → Bool
  | ⟨n, c, d⟩, ⟨n', c', d'⟩ =>
    decide (n = n') && optTsTypeDefBeq c c' && optTsTypeDefBeq d d'
termination_by structural t => t

/-- Structural equality on lists of generic-parameter descriptors. -/
def listTsTypeParamDefBeq : List TsTypeParamDef → List TsTypeParamDef → Bool
  | [], [] => true
  | a :: as, b :: bs => tsTypeParamDefBeq a b && listTsTypeParamDefBeq as bs
  | _, _ => false
termination_by structural t => t

/-- Structural equality on conditional payloads. -/
def tsConditionalDefBeq : TsConditionalDef → TsConditionalDef → Bool
  | ⟨c, e, t, f⟩, ⟨c', e', t', f'⟩ =>
    tsTypeDefBeq c c' && tsTypeDefBeq e e' && tsTypeDefBeq t t' && tsTypeDefBeq f f'
termination_by structural t => t

/-- Structural equality on optional conditional payloads. -/
def optTsConditionalDefBeq : Option TsConditionalDef → Option TsConditionalDef → Bool
  | none, none => true
  | some a, some b => tsConditionalDefBeq a b
  | _, _ => false
termination_by structural t => t

/-- Structural equality on infer payloads. -/
def tsInferDefBeq : TsInferDef → TsInferDef → Bool
  | ⟨tp⟩, ⟨tp'⟩ => tsTypeParamDefBeq tp tp'
termination_by structural t => t

/-- Structural equality on optional infer payloads. -/
def optTsInferDefBeq : Option TsInferDef → Option TsInferDef → Bool
  | none, none => true
  | some a, some b => tsInferDefBeq a b
  | _, _ => false
termination_by structural t => t

/-- Structural equality on import-type payloads. -/
def tsImportTypeDefBeq : TsImportTypeDef → TsImportTypeDef → Bool
  | ⟨s, q, tp⟩, ⟨s', q', tp'⟩ =>
    decide (s = s') && decide (q = q') && optListTsTypeDefBeq tp tp'
termination_by structural t => t

/-- Structural equality on optional import-type payloads. -/
def optTsImportTypeDefBeq : Option TsImportTypeDef → Option TsImportTypeDef → Bool
  | none, none => true
  | some a, some b => tsImportTypeDefBeq a b
  | _, _ => false
termination_by structural t => t

/-- Structural equality on indexed-access payloads. -/
def tsIndexedAccessDefBeq : TsIndexedAccessDef → TsIndexedAccessDef → Bool
  | ⟨r, o, i⟩, ⟨r', o', i'⟩ =>
    decide (r = r') && tsTypeDefBeq o o' && tsTypeDefBeq i i'
termination_by structural t => t

/-- Structural equality on optional indexed-access payloads. -/
def optTsIndexedAccessDefBeq : Option TsIndexedAccessDef → Option TsIndexedAccessDef → Bool
  | none, none => true
  | some a, some b => tsIndexedAccessDefBeq a b
  | _, _ => false
termination_by structural t => t

/-- Structural equality on mapped-type payloads. -/
def tsMappedTypeDefBeq : TsMappedTypeDef → TsMappedTypeDef → Bool
  | ⟨r, tp, nt, o, t⟩, ⟨r', tp', nt', o', t'⟩ =>
    decide (r = r') && tsTypeParamDefBeq tp tp' && optTsTypeDefBeq nt nt' &&
    decide (o = o') && optTsTypeDefBeq t t'
termination_by structural t => t

/-- Structural equality on optional mapped-type payloads. -/
def optTsMappedTypeDefBeq : Option TsMappedTypeDef → Option TsMappedTypeDef → Bool
  | none, none => true
  | some a, some b => tsMappedTypeDefBeq a b
  | _, _ => false
termination_by structural t => t

/-- Structural equality on method entries. -/
def literalMethodDefBeq : LiteralMethodDef → LiteralMethodDef → Bool
  | ⟨n, k, p, c, o, rt, tps⟩, ⟨n', k', p', c', o', rt', tps'⟩ =>
    decide (n = n') && decide (k = k') && decide (p = p') && decide (c = c') &&
    decide (o = o') && optTsTypeDefBeq rt rt' && listTsTypeParamDefBeq tps tps'
termination_by structural t => t

/-- Structural equality on lists of method entries. -/
def listLiteralMethodDefBeq : List LiteralMethodDef → List LiteralMethodDef → Bool
  | [], [] => true
  | a :: as, b :: bs => literalMethodDefBeq a b && listLiteralMethodDefBeq as bs
  | _, _ => false
termination_by structural t => t

/-- Structural equality on property entries. -/
def literalPropertyDefBeq : LiteralPropertyDef → LiteralPropertyDef → Bool
  | ⟨n, p, r, c, o, t, tps⟩, ⟨n', p', r', c', o', t', tps'⟩ =>
    decide (n = n') && decide (p = p') && decide (r = r') && decide (c = c') &&
    decide (o = o') && optTsTypeDefBeq t t' && listTsTypeParamDefBeq tps tps'
termination_by structural t => t

/-- Structural equality on lists of property entries. -/
def listLiteralPropertyDefBeq : List LiteralPropertyDef → List LiteralPropertyDef → Bool
  | [], [] => true
  | a :: as, b :: bs => literalPropertyDefBeq a b && listLiteralPropertyDefBeq as bs
  | _, _ => false
termination_by structural t => t

/-- Structural equality on call-signature entries. -/
def literalCallSignatureDefBeq : LiteralCallSignatureDef → LiteralCallSignatureDef → Bool
  | ⟨p, t, tps⟩, ⟨p', t', tps'⟩ =>
    decide (p = p') && optTsTypeDefBeq t t' && listTsTypeParamDefBeq tps tps'
termination_by structural t => t

/-- Structural equality on lists of call-signature entries. -/
def listLiteralCallSignatureDefBeq : List LiteralCallSignatureDef → List LiteralCallSignatureDef → Bool
  | [], [] => true
  | a :: as, b :: bs => literalCallSignatureDefBeq a b && listLiteralCallSignatureDefBeq as bs
  | _, _ => false
termination_by structural t => t

/-- Structural equality on index-signature entries. -/
def literalIndexSignatureDefBeq : LiteralIndexSignatureDef → LiteralIndexSignatureDef → Bool
  | ⟨r, p, t⟩, ⟨r', p', t'⟩ =>
    decide (r = r') && decide (p = p') && optTsTypeDefBeq t t'
termination_by structural t => t

/-- Structural equality on lists of index-signature entries. -/
def listLiteralIndexSignatureDefBeq : List LiteralIndexSignatureDef → List LiteralIndexSignatureDef → Bool
  | [], [] => true
  | a :: as, b :: bs => literalIndexSignatureDefBeq a b && listLiteralIndexSignatureDefBeq as bs
  | _, _ => false
termination_by structural t => t

/-- Structural equality on structural-type-literal payloads. -/
def tsTypeLiteralDefBeq : TsTypeLiteralDef → TsTypeLiteralDef → Bool
  | ⟨m, p, c, i⟩, ⟨m', p', c', i'⟩ =>
    listLiteralMethodDefBeq m m' && listLiteralPropertyDefBeq p p' &&
    listLiteralCallSignatureDefBeq c c' && listLiteralIndexSignatureDefBeq i i'
termination_by structural t => t

/-- Structural equality on optional structural-type-literal payloads. -/
def optTsTypeLiteralDefBeq : Option TsTypeLiteralDef → Option TsTypeLiteralDef → Bool
  | none, none => true
  | some a, some b => tsTypeLiteralDefBeq a b
  | _, _ => false
termination_by structural t => t

/-- Structural equality on type-predicate payloads. -/
def tsTypePredicateDefBeq : TsTypePredicateDef → TsTypePredicateDef → Bool
  | ⟨a, p, t⟩, ⟨a', p', t'⟩ =>
    decide (a = a') && decide (p = p') && optTsTypeDefBeq t t'
termination_by structural t => t

/-- Structural equality on optional type-predicate payloads. -/
def optTsTypePredicateDefBeq : Option TsTypePredicateDef → Option TsTypePredicateDef → Bool
  | none, none => true
  | some a, some b => tsTypePredicateDefBeq a b
  | _, _ => false
termination_by structural t => t

end

/-- The derived `PartialEq` of the source as the equality test of canonical
nodes. -/
instance : BEq TsTypeDef := ⟨tsTypeDefBeq⟩

namespace colors

/-- Modelled from the spec: `crate::colors` (outside the given fragment) is a
pluggable styling collaborator; the core renderer must behave identically
with styling enabled or disabled, so every marker is the plain passthrough. -/
def red (s : String) : String := s

/-- Modelled from the spec: plain passthrough styling marker. -/
def magenta (s : String) : String := s

/-- Modelled from the spec: plain passthrough styling marker. -/
def cyan (s : String) : String := s

/-- Modelled from the spec: plain passthrough styling marker. -/
def green (s : String) : String := s

/-- Modelled from the spec: plain passthrough styling marker. -/
def yellow (s : String) : String := s

/-- Modelled from the spec: plain passthrough styling marker. -/
def intense_blue (s : String) : String := s

end colors

/-- Modelled from the spec: `SliceDisplayer` of `crate::display` (outside the
given fragment) joins the rendered items with the separator; with the
trailing flag set it also appends one final separator after a non-empty
list. -/
def sliceDisplay (items : List String) (sep : String) (trailing : Bool) : String :=
  if items.isEmpty then ""
  else String.intercalate sep items ++ (if trailing then sep else "")

/-- Modelled from the spec: `display_readonly` of `crate::display` (outside
the given fragment) prints the readonly marker of an entry. -/
def display_readonly (b : Bool) : String :=
  if b then "readonly " else ""

/-- Modelled from the spec: `display_optional` of `crate::display` (outside
the given fragment) prints the optional marker of an entry. -/
def display_optional (b : Bool) : String :=
  if b then "?" else ""

/-- Modelled from the spec: `display_computed` of `crate::display` (outside
the given fragment) brackets a computed member name. -/
def display_computed (computed : Bool) (name : String) : String :=
  if computed then "[" ++ name ++ "]" else name

/-- Modelled from the spec: the rendering of the opaque parameter descriptor
of `crate::params` (outside the given fragment). -/
def displayParamDef (p : ParamDef) : String := p.repr

/-- Rendering result standing in for the Rust `unwrap` abort on a node whose
kind tag has no matching payload; unreachable for nodes this module itself
constructs (see the well-formedness invariant below). -/
def missingPayload : String := "[MISSING PAYLOAD]"

mutual

/-- The renderer: `impl Display for TsTypeDef`, precedence-aware and purely
recursive.  Each kind dispatches to the display of its payload field. -/
def tsTypeDefDisplay : TsTypeDef → String
  | ⟨_, k, kw, li, tr, un, it, ar, tu, tow, pa, re, op, tq, _, fc, co, inf, ia, mt, tl, tp, im⟩ =>
    match k with
    | none => colors.red "[UNSUPPORTED]"
    | some .Array => displayArrayP ar
    | some .Conditional => displayConditionalP co
    | some .Infer => displayInferP inf
    | some .ImportType => displayImportP im
    | some .FnOrConstructor => displayFnCtorP fc
    | some .IndexedAccess => displayIndexedP ia
    | some .Intersection => displayIntersectionP it
    | some .Mapped => displayMappedP mt
    | some .Keyword =>
      match kw with
      | some s => colors.cyan s
      | none => missingPayload
    | some .Literal => displayLiteralP li
    | some .Optional => displayOptionalP op
    | some .Parenthesized => displayParenP pa
    | some .Rest => displayRestP re
    | some .This => "this"
    | some .Tuple => displayTupleP tu
    | some .TypeLiteral => displayTypeLiteralP tl
    | some .TypeOperator => displayTypeOperatorP tow
    | some .TypeQuery =>
      match tq with
      | some q => "typeof " ++ q
      | none => missingPayload
    | some .TypeRef => displayTypeRefP tr
    | some .Union => displayUnionP un
    | some .TypePredicate => displayTypePredicateP tp
termination_by structural t => t

/-- Array rendering: the element is parenthesized before `[]` exactly when it
is a union or intersection node. -/
def displayArrayP : Option TsTypeDef → String
  | some a =>
    if a.kind = some .Union ∨ a.kind = some .Intersection then
      "(" ++ tsTypeDefDisplay a ++ ")[]"
    else
      tsTypeDefDisplay a ++ "[]"
  | none => missingPayload
termination_by structural t => t

/-- Conditional rendering `check extends ext ? t : f`. -/
def displayConditionalP : Option TsConditionalDef → String
  | some ⟨c, e, t, f⟩ =>
    tsTypeDefDisplay c ++ " " ++ colors.magenta "extends" ++ " " ++
      tsTypeDefDisplay e ++ " ? " ++ tsTypeDefDisplay t ++ " : " ++
      tsTypeDefDisplay f
  | none => missingPayload
termination_by structural t => t

/-- Infer rendering `infer T`. -/
def displayInferP : Option TsInferDef → String
  | some ⟨tpm⟩ => colors.magenta "infer" ++ " " ++ tsTypeParamDefDisplay tpm
  | none => missingPayload
termination_by structural t => t

/-- Import-type rendering. -/
def displayImportP : Option TsImportTypeDef → String
  | some ⟨spec, qual, tps⟩ =>
    "import(\"" ++ spec ++ "\")" ++
      (match qual with
       | some q => "." ++ q
       | none => "") ++
      (match tps with
       | some l => "<" ++ sliceDisplay (displayListTsTypeDef l) ", " false ++ ">"
       | none => "")
  | none => missingPayload
termination_by structural t => t

/-- Function-or-constructor rendering `(params) => t` / `new (params) => t`. -/
def displayFnCtorP : Option TsFnOrConstructorDef → String
  | some ⟨ctor, t, ps, _⟩ =>
    colors.magenta (if ctor then "new " else "") ++ "(" ++
      sliceDisplay (ps.map displayParamDef) ", " false ++ ") => " ++
      tsTypeDefDisplay t
  | none => missingPayload
termination_by structural t => t

/-- Indexed-access rendering `obj[index]`. -/
def displayIndexedP : Option TsIndexedAccessDef → String
  | some ⟨_, o, i⟩ => tsTypeDefDisplay o ++ "[" ++ tsTypeDefDisplay i ++ "]"
  | none => missingPayload
termination_by structural t => t

/-- Intersection rendering, ` & `-joined. -/
def displayIntersectionP : Option (List TsTypeDef) → String
  | some l => sliceDisplay (displayListTsTypeDef l) " & " false
  | none => missingPayload
termination_by structural t => t

/-- Mapped-type rendering with tri-state modifiers.  When the type parameter
has a constraint it renders as `name in constraint`; otherwise the fallback
is the descriptor's own rendering, inlined here for the constraint-free
shape (name plus optional default). -/
def displayMappedP : Option TsMappedTypeDef → String
  | some ⟨ro, ⟨nm, c, d⟩, nt, optl, t⟩ =>
    (match ro with
     | some .True => colors.magenta "readonly" ++ " "
     | some .Plus => "+" ++ colors.magenta "readonly" ++ " "
     | some .Minus => "-" ++ colors.magenta "readonly" ++ " "
     | _ => "") ++
    "[" ++
    (match c with
     | some cc => nm ++ " in " ++ tsTypeDefDisplay cc
     | none =>
       nm ++
         (match d with
          | some df => " = " ++ tsTypeDefDisplay df
          | none => "")) ++
    (match nt with
     | some n => " " ++ colors.magenta "as" ++ " " ++ tsTypeDefDisplay n
     | none => "") ++
    "]" ++
    (match optl with
     | some .True => "?"
     | some .Plus => "+?"
     | some .Minus => "-?"
     | _ => "") ++
    (match t with
     | some ty => ": " ++ tsTypeDefDisplay ty
     | none => "")
  | none => missingPayload
termination_by structural t => t

/-- Literal rendering by category. -/
def displayLiteralP : Option LiteralDef → String
  | some ⟨lk, n, s, tts, b⟩ =>
    match lk with
    | .Boolean =>
      match b with
      | some bv => colors.yellow (toString bv)
      | none => missingPayload
    | .String =>
      match s with
      | some sv => colors.green ("\"" ++ sv ++ "\"")
      | none => missingPayload
    | .Template =>
      match tts with
      | some segs => colors.green "`" ++ tplSegmentsDisplay segs ++ colors.green "`"
      | none => missingPayload
    | .Number =>
      match n with
      | some nv => colors.yellow (toString nv)
      | none => missingPayload
    | .BigInt =>
      match s with
      | some sv => colors.yellow sv
      | none => missingPayload
  | none => missingPayload
termination_by structural t => t

/-- Optional rendering `t?`. -/
def displayOptionalP : Option TsTypeDef → String
  | some o => tsTypeDefDisplay o ++ "?"
  | none => missingPayload
termination_by structural t => t

/-- Parenthesized rendering `(t)`. -/
def displayParenP : Option TsTypeDef → String
  | some p => "(" ++ tsTypeDefDisplay p ++ ")"
  | none => missingPayload
termination_by structural t => t

/-- Rest rendering `...t`. -/
def displayRestP : Option TsTypeDef → String
  | some r => "..." ++ tsTypeDefDisplay r
  | none => missingPayload
termination_by structural t => t

/-- Tuple rendering `[a, b, c]`. -/
def displayTupleP : Option (List TsTypeDef) → String
  | some l => "[" ++ sliceDisplay (displayListTsTypeDef l) ", " false ++ "]"
  | none => missingPayload
termination_by structural t => t

/-- Structural-type-literal rendering: call signatures, methods, properties,
index signatures, each `; `-joined with trailing separators, inside braces. -/
def displayTypeLiteralP : Option TsTypeLiteralDef → String
  | some ⟨ms, ps, cs, iss⟩ =>
    "\x7b " ++ sliceDisplay (displayListCallSig cs) "; " true ++
      sliceDisplay (displayListMethod ms) "; " true ++
      sliceDisplay (displayListProperty ps) "; " true ++
      sliceDisplay (displayListIndexSig iss) "; " true ++ "\x7d"
  | none => missingPayload
termination_by structural t => t

/-- Type-operator rendering `op t`. -/
def displayTypeOperatorP : Option TsTypeOperatorDef → String
  | some ⟨o, t⟩ => o ++ " " ++ tsTypeDefDisplay t
  | none => missingPayload
termination_by structural t => t

/-- Type-reference rendering `Name` / `Name<args>`. -/
def displayTypeRefP : Option TsTypeRefDef → String
  | some ⟨tps, n⟩ =>
    colors.intense_blue n ++
      (match tps with
       | some l => "<" ++ sliceDisplay (displayListTsTypeDef l) ", " false ++ ">"
       | none => "")
  | none => missingPayload
termination_by structural t => t

/-- Union rendering, ` | `-joined. -/
def displayUnionP : Option (List TsTypeDef) → String
  | some l => sliceDisplay (displayListTsTypeDef l) " | " false
  | none => missingPayload
termination_by structural t => t

/-- Type-predicate rendering via its own `Display`. -/
def displayTypePredicateP : Option TsTypePredicateDef → String
  | some pd => tsTypePredicateDefDisplay pd
  | none => missingPayload
termination_by structural t => t

/-- Renders every node of a list (the `SliceDisplayer` item pass). -/
def displayListTsTypeDef : List TsTypeDef → List String
  | [] => []
  | t :: ts => tsTypeDefDisplay t :: displayListTsTypeDef ts
termination_by structural t => t

/-- Renders the merged segments of a template-literal node: a string-literal
segment is emitted with its raw unquoted text, every other segment as an
interpolation placeholder. -/
def tplSegmentsDisplay : List TsTypeDef → String
  | [] => ""
  | seg :: rest =>
    (match seg.kind with
     | none => missingPayload
     | some .Literal =>
       match seg.literal with
       | none => missingPayload
       | some lit =>
         match lit with
         | ⟨.String, _, some sv, _, _⟩ => colors.green sv
         | ⟨.String, _, none, _, _⟩ => missingPayload
         | _ => colors.magenta "$\x7b" ++ tsTypeDefDisplay seg ++ colors.magenta "\x7d"
     | some _ => colors.magenta "$\x7b" ++ tsTypeDefDisplay seg ++ colors.magenta "\x7d") ++
    tplSegmentsDisplay rest
termination_by structural t => t

/-- Modelled from the spec: the rendering of the opaque generic-parameter
descriptor of `crate::ts_type_param` (outside the given fragment): the name,
then its constraint and default when present. -/
def tsTypeParamDefDisplay : TsTypeParamDef → String
  | ⟨n, c, d⟩ =>
    n ++
      (match c with
       | some ct => " extends " ++ tsTypeDefDisplay ct
       | none => "") ++
      (match d with
       | some df => " = " ++ tsTypeDefDisplay df
       | none => "")
termination_by structural t => t

/-- `impl Display for TsTypePredicateDef`. -/
def tsTypePredicateDefDisplay : TsTypePredicateDef → String
  | ⟨asserts, param, t⟩ =>
    String.intercalate " "
      ((if asserts then ["asserts"] else []) ++
        [match param with
         | .This => "this"
         | .Identifier nm => nm] ++
        (match t with
         | some ty => ["is", tsTypeDefDisplay ty]
         | none => []))
termination_by structural t => t

/-- `impl Display for LiteralMethodDef`. -/
def literalMethodDefDisplay : LiteralMethodDef → String
  | ⟨n, _, ps, comp, optl, rt, _⟩ =>
    display_computed comp n ++ display_optional optl ++ "(" ++
      sliceDisplay (ps.map displayParamDef) ", " false ++ ")" ++
      (match rt with
       | some t => ": " ++ tsTypeDefDisplay t
       | none => "")
termination_by structural t => t

/-- Renders every method entry of a list. -/
def displayListMethod : List LiteralMethodDef → List String
  | [] => []
  | m :: ms => literalMethodDefDisplay m :: displayListMethod ms
termination_by structural t => t

/-- `impl Display for LiteralPropertyDef`. -/
def literalPropertyDefDisplay : LiteralPropertyDef → String
  | ⟨n, _, _, _, _, t, _⟩ =>
    n ++
      (match t with
       | some ty => ": " ++ tsTypeDefDisplay ty
       | none => "")
termination_by structural t => t

/-- Renders every property entry of a list. -/
def displayListProperty : List LiteralPropertyDef → List String
  | [] => []
  | p :: ps => literalPropertyDefDisplay p :: displayListProperty ps
termination_by structural t => t

/-- `impl Display for LiteralCallSignatureDef`. -/
def literalCallSignatureDefDisplay : LiteralCallSignatureDef → String
  | ⟨ps, t, _⟩ =>
    "(" ++ sliceDisplay (ps.map displayParamDef) ", " false ++ ")" ++
      (match t with
       | some ty => ": " ++ tsTypeDefDisplay ty
       | none => "")
termination_by structural t => t

/-- Renders every call-signature entry of a list. -/
def displayListCallSig : List LiteralCallSignatureDef → List String
  | [] => []
  | c :: cs => literalCallSignatureDefDisplay c :: displayListCallSig cs
termination_by structural t => t

/-- `impl Display for LiteralIndexSignatureDef`. -/
def literalIndexSignatureDefDisplay : LiteralIndexSignatureDef → String
  | ⟨ro, ps, t⟩ =>
    display_readonly ro ++ "[" ++
      sliceDisplay (ps.map displayParamDef) ", " false ++ "]" ++
      (match t with
       | some ty => ": " ++ tsTypeDefDisplay ty
       | none => "")
termination_by structural t => t

/-- Renders every index-signature entry of a list. -/
def displayListIndexSig : List LiteralIndexSignatureDef → List String
  | [] => []
  | i :: is => literalIndexSignatureDefDisplay i :: displayListIndexSig is
termination_by structural t => t

end

/-- Rust `ts_member_name_to_name`. -/
def ts_member_name_to_name : swc.TsMemberName → String
  | .Ident sym => sym
  | .PrivateName sym => sym

/-- Rust `ts_entity_name_to_name`: dot-joins qualified names. -/
def ts_entity_name_to_name : swc.TsEntityName → String
  | .Ident sym => sym
  | .TsQualifiedName left right =>
    ts_entity_name_to_name left ++ "." ++ ts_member_name_to_name right

/-- Modelled from the spec: `expr_to_name` of `crate::interface` (outside the
given fragment) extracts the textual name of a member-key expression. -/
def expr_to_name : swc.Expr → String
  | .Ident sym => sym
  | .Lit (.Str s) => s.value
  | _ => "<TODO>"

/-- Modelled from the spec: the opaque parameter-descriptor builder
`pat_to_param_def` of `crate::params` (outside the given fragment); the
source's leading context argument is always `None` in this module and is
dropped. -/
def pat_to_param_def (pat : swc.Pat) : ParamDef := ⟨pat.name⟩

/-- Modelled from the spec: the opaque parameter-descriptor builder
`ts_fn_param_to_param_def` of `crate::params` (outside the given fragment);
the source's leading context argument is always `None` in this module and is
dropped. -/
def ts_fn_param_to_param_def (param : swc.TsFnParam) : ParamDef := ⟨param.name⟩

/-- Rust `get_span_from_type`: the comparable source-position key of a type
node.  Arrays delegate to their element, conditionals to their check type,
indexed accesses to their index type, exactly as the source does. -/
def get_span_from_type : swc.TsType → Span
  | .TsArrayType _ elem_type => get_span_from_type elem_type
  | .TsConditionalType _ check_type _ _ _ => get_span_from_type check_type
  | .TsFnOrConstructorType f =>
    match f with
    | .TsConstructorType sp _ _ _ => sp
    | .TsFnType sp _ _ _ => sp
  | .TsImportType sp _ _ _ => sp
  | .TsIndexedAccessType _ _ _ index_type => get_span_from_type index_type
  | .TsInferType sp _ => sp
  | .TsKeywordType sp _ => sp
  | .TsLitType sp _ => sp
  | .TsMappedType sp _ _ _ _ _ => sp
  | .TsOptionalType sp _ => sp
  | .TsParenthesizedType sp _ => sp
  | .TsRestType sp _ => sp
  | .TsThisType sp => sp
  | .TsTupleType sp _ => sp
  | .TsTypeLit sp _ => sp
  | .TsTypeOperator sp _ _ => sp
  | .TsTypePredicate sp _ _ _ => sp
  | .TsTypeQuery sp _ => sp
  | .TsTypeRef sp _ _ => sp
  | .TsUnionOrIntersectionType u =>
    match u with
    | .TsIntersectionType sp _ => sp
    | .TsUnionType sp _ => sp

/-- Keyword text of each keyword kind (the `keyword_str` match of
`From<&TsKeywordType>`). -/
def ts_keyword_str : swc.TsKeywordTypeKind → String
  | .TsAnyKeyword => "any"
  | .TsUnknownKeyword => "unknown"
  | .TsNumberKeyword => "number"
  | .TsObjectKeyword => "object"
  | .TsBooleanKeyword => "boolean"
  | .TsBigIntKeyword => "bigint"
  | .TsStringKeyword => "string"
  | .TsSymbolKeyword => "symbol"
  | .TsVoidKeyword => "void"
  | .TsUndefinedKeyword => "undefined"
  | .TsNullKeyword => "null"
  | .TsNeverKeyword => "never"
  | .TsIntrinsicKeyword => "intrinsic"

/-- Name extraction of a `typeof` query target (the `type_name` match of
`From<&TsTypeQuery>`). -/
def ts_type_query_expr_to_name : swc.TsTypeQueryExpr → String
  | .TsEntityName e => ts_entity_name_to_name e
  | .Import _ arg _ _ => arg.value

/-- Subject conversion of `From<&TsThisTypeOrIdent> for ThisOrIdent`. -/
def thisOrIdentOf : swc.TsThisTypeOrIdent → ThisOrIdent
  | .TsThisType => ThisOrIdent.This
  | .Ident sym => ThisOrIdent.Identifier sym

/-- Ordering of merged template segments by source span (the
`sort_by(|a, b| a.cmp(b))` comparator on the first triple component). -/
def tplSegLE (a b : Span × TsTypeDef × String) : Prop := a.1 ≤ b.1

instance : DecidableRel tplSegLE := fun a b => Nat.decLe a.1 b.1

/-- Quasi segments of `TsTypeDef::tpl_literal`: each literal chunk becomes a
string-literal node carrying its raw text, keyed by its span. -/
def tplQuasiSegments (quasis : List swc.TplElement) : List (Span × TsTypeDef × String) :=
  quasis.map fun q =>
    (q.span, TsTypeDef.literalDef q.raw
      (LiteralDef.mk LiteralDefKind.String none (some q.raw) none none), q.raw)

/-- Concatenation of a list of strings (Rust `Vec::join("")`). -/
def concatStrs : List String → String
  | [] => ""
  | s :: ss => s ++ concatStrs ss

/-- Final assembly of `TsTypeDef::tpl_literal`: sort the merged segments by
span (the source's stable `sort_by`; insertion sort is a stable comparison
sort and under the distinct-span invariant the sorted permutation is
unique), join the display texts into `repr`, and keep the sorted nodes as
the template payload. -/
def tplFromSegments (segs : List (Span × TsTypeDef × String)) : TsTypeDef :=
  let sorted := List.insertionSort tplSegLE segs
  TsTypeDef.literalDef (concatStrs (sorted.map fun s => s.2.2))
    (LiteralDef.mk LiteralDefKind.Template none none
      (some (sorted.map fun s => s.2.1)) none)

/-- The collapsed `any[]` array-literal inference result: repr `any[]`, kind
`Array`, element the `any` keyword. -/
def anyArrayTsTypeDef : TsTypeDef :=
  TsTypeDef.mkArray "any[]" (TsTypeDef.keywordDef "any")

mutual

/-- The central converter `From<&TsType> for TsTypeDef`: one branch per
syntactic form, each building the node of the corresponding kind. -/
def TsTypeDef.from_ts_type : swc.TsType → TsTypeDef
  | .TsKeywordType _ kind => TsTypeDef.keywordDef (ts_keyword_str kind)
  | .TsThisType _ => TsTypeDef.mkThis "this" true
  | .TsFnOrConstructorType f => from_ts_fn_or_constructor_type f
  | .TsTypeRef _ type_name type_params =>
    TsTypeDef.mkTypeRef (ts_entity_name_to_name type_name)
      (TsTypeRefDef.mk (convOptListTsType type_params) (ts_entity_name_to_name type_name))
  | .TsTypeQuery _ expr_name =>
    TsTypeDef.mkTypeQuery (ts_type_query_expr_to_name expr_name)
      (ts_type_query_expr_to_name expr_name)
  | .TsTypeLit _ members =>
    TsTypeDef.mkTypeLiteral ""
      (TsTypeLiteralDef.mk (extractLitMethods members) (extractLitProperties members)
        (extractLitCallSigs members) (extractLitIndexSigs members))
  | .TsArrayType _ elem_type => TsTypeDef.mkArray "" (TsTypeDef.from_ts_type elem_type)
  | .TsTupleType _ elem_types => TsTypeDef.mkTuple "" (convTupleElems elem_types)
  | .TsOptionalType _ type_ann => TsTypeDef.mkOptional "" (TsTypeDef.from_ts_type type_ann)
  | .TsRestType _ type_ann => TsTypeDef.mkRest "" (TsTypeDef.from_ts_type type_ann)
  | .TsUnionOrIntersectionType u => from_ts_union_or_intersection_type u
  | .TsConditionalType _ check_type extends_type true_type false_type =>
    TsTypeDef.mkConditional ""
      (TsConditionalDef.mk (TsTypeDef.from_ts_type check_type)
        (TsTypeDef.from_ts_type extends_type) (TsTypeDef.from_ts_type true_type)
        (TsTypeDef.from_ts_type false_type))
  | .TsInferType _ type_param =>
    TsTypeDef.mkInfer "" (TsInferDef.mk (from_ts_type_param type_param))
  | .TsParenthesizedType _ type_ann =>
    TsTypeDef.mkParenthesized "" (TsTypeDef.from_ts_type type_ann)
  | .TsTypeOperator _ op type_ann =>
    TsTypeDef.mkTypeOperator ""
      (TsTypeOperatorDef.mk op.as_str (TsTypeDef.from_ts_type type_ann))
  | .TsIndexedAccessType _ readonly obj_type index_type =>
    TsTypeDef.mkIndexedAccess ""
      (TsIndexedAccessDef.mk readonly (TsTypeDef.from_ts_type obj_type)
        (TsTypeDef.from_ts_type index_type))
  | .TsMappedType _ readonly type_param name_type optional type_ann =>
    TsTypeDef.mkMapped ""
      (TsMappedTypeDef.mk readonly (from_ts_type_param type_param)
        (convOptTsType name_type) optional (convOptTsType type_ann))
  | .TsLitType _ lit => from_ts_lit lit
  | .TsTypePredicate _ asserts param_name type_ann =>
    mkTypePredicateNode (TsTypePredicateDef.mk asserts (thisOrIdentOf param_name)
      (convOptTsTypeAnn type_ann))
  | .TsImportType _ arg qualifier type_args =>
    TsTypeDef.mkImportType ""
      (TsImportTypeDef.mk arg.value (qualifier.map ts_entity_name_to_name)
        (convOptListTsType type_args))
termination_by structural t => t

/-- Rust `ts_type_ann_to_def`: the source repeats the full dispatch of
`From<&TsType>` verbatim on the annotation's inner type; so does this
embedding (the annotation wrapper itself is flattened away). -/
def ts_type_ann_to_def : swc.TsType → TsTypeDef
  | .TsKeywordType _ kind => TsTypeDef.keywordDef (ts_keyword_str kind)
  | .TsThisType _ => TsTypeDef.mkThis "this" true
  | .TsFnOrConstructorType f => from_ts_fn_or_constructor_type f
  | .TsTypeRef _ type_name type_params =>
    TsTypeDef.mkTypeRef (ts_entity_name_to_name type_name)
      (TsTypeRefDef.mk (convOptListTsType type_params) (ts_entity_name_to_name type_name))
  | .TsTypeQuery _ expr_name =>
    TsTypeDef.mkTypeQuery (ts_type_query_expr_to_name expr_name)
      (ts_type_query_expr_to_name expr_name)
  | .TsTypeLit _ members =>
    TsTypeDef.mkTypeLiteral ""
      (TsTypeLiteralDef.mk (extractLitMethods members) (extractLitProperties members)
        (extractLitCallSigs members) (extractLitIndexSigs members))
  | .TsArrayType _ elem_type => TsTypeDef.mkArray "" (TsTypeDef.from_ts_type elem_type)
  | .TsTupleType _ elem_types => TsTypeDef.mkTuple "" (convTupleElems elem_types)
  | .TsOptionalType _ type_ann => TsTypeDef.mkOptional "" (TsTypeDef.from_ts_type type_ann)
  | .TsRestType _ type_ann => TsTypeDef.mkRest "" (TsTypeDef.from_ts_type type_ann)
  | .TsUnionOrIntersectionType u => from_ts_union_or_intersection_type u
  | .TsConditionalType _ check_type extends_type true_type false_type =>
    TsTypeDef.mkConditional ""
      (TsConditionalDef.mk (TsTypeDef.from_ts_type check_type)
        (TsTypeDef.from_ts_type extends_type) (TsTypeDef.from_ts_type true_type)
        (TsTypeDef.from_ts_type false_type))
  | .TsInferType _ type_param =>
    TsTypeDef.mkInfer "" (TsInferDef.mk (from_ts_type_param type_param))
  | .TsParenthesizedType _ type_ann =>
    TsTypeDef.mkParenthesized "" (TsTypeDef.from_ts_type type_ann)
  | .TsTypeOperator _ op type_ann =>
    TsTypeDef.mkTypeOperator ""
      (TsTypeOperatorDef.mk op.as_str (TsTypeDef.from_ts_type type_ann))
  | .TsIndexedAccessType _ readonly obj_type index_type =>
    TsTypeDef.mkIndexedAccess ""
      (TsIndexedAccessDef.mk readonly (TsTypeDef.from_ts_type obj_type)
        (TsTypeDef.from_ts_type index_type))
  | .TsMappedType _ readonly type_param name_type optional type_ann =>
    TsTypeDef.mkMapped ""
      (TsMappedTypeDef.mk readonly (from_ts_type_param type_param)
        (convOptTsType name_type) optional (convOptTsType type_ann))
  | .TsLitType _ lit => from_ts_lit lit
  | .TsTypePredicate _ asserts param_name type_ann =>
    mkTypePredicateNode (TsTypePredicateDef.mk asserts (thisOrIdentOf param_name)
      (convOptTsTypeAnn type_ann))
  | .TsImportType _ arg qualifier type_args =>
    TsTypeDef.mkImportType ""
      (TsImportTypeDef.mk arg.value (qualifier.map ts_entity_name_to_name)
        (convOptListTsType type_args))
termination_by structural t => t

/-- `From<&TsFnOrConstructorType>`: parameters via the opaque builder, return
type via `ts_type_ann_to_def`, constructor flag per variant. -/
def from_ts_fn_or_constructor_type : swc.TsFnOrConstructorType → TsTypeDef
  | .TsFnType _ params type_params type_ann =>
    TsTypeDef.mkFnOrConstructor ""
      (TsFnOrConstructorDef.mk false (ts_type_ann_to_def type_ann)
        (params.map ts_fn_param_to_param_def)
        (maybe_type_param_decl_to_type_param_defs type_params))
  | .TsConstructorType _ params type_params type_ann =>
    TsTypeDef.mkFnOrConstructor ""
      (TsFnOrConstructorDef.mk true (ts_type_ann_to_def type_ann)
        (params.map ts_fn_param_to_param_def)
        (maybe_type_param_decl_to_type_param_defs type_params))
termination_by structural t => t

/-- `From<&TsUnionOrIntersectionType>`: member order preserved, no
deduplication. -/
def from_ts_union_or_intersection_type : swc.TsUnionOrIntersectionType → TsTypeDef
  | .TsUnionType _ types => TsTypeDef.mkUnion "" (convListTsType types)
  | .TsIntersectionType _ types => TsTypeDef.mkIntersection "" (convListTsType types)
termination_by structural t => t

/-- `From<&TsLitType>` on its literal payload.  The template arm is
`TsTypeDef::tpl_literal` (its body is factored through `tplFromSegments`;
`TsTypeDef.tpl_literal` below is the same composition as a standalone
function). -/
def from_ts_lit : swc.TsLit → TsTypeDef
  | .Number n => TsTypeDef.number_literal n
  | .Str s => TsTypeDef.string_literal s
  | .Tpl _ types quasis =>
    tplFromSegments (tplTypeSegments types ++ tplQuasiSegments quasis)
  | .Bool b => TsTypeDef.bool_literal b
  | .BigInt b => TsTypeDef.bigint_literal b
termination_by structural t => t

/-- Interpolated-type segments of `TsTypeDef::tpl_literal`: each type is
converted, keyed by its span, and displayed as a `${...}` placeholder. -/
def tplTypeSegments : List swc.TsType → List (Span × TsTypeDef × String)
  | [] => []
  | t :: ts =>
    let d := TsTypeDef.from_ts_type t
    (get_span_from_type t, d, "$\x7b" ++ tsTypeDefDisplay d ++ "\x7d") ::
      tplTypeSegments ts
termination_by structural t => t

/-- Converts each type of a list (the repeated `Vec` loops of the source). -/
def convListTsType : List swc.TsType → List TsTypeDef
  | [] => []
  | t :: ts => TsTypeDef.from_ts_type t :: convListTsType ts
termination_by structural t => t

/-- Converts an optional type via `From<&TsType>`. -/
def convOptTsType : Option swc.TsType → Option TsTypeDef
  | none => none
  | some t => some (TsTypeDef.from_ts_type t)
termination_by structural t => t

/-- Converts an optional type annotation via `ts_type_ann_to_def`. -/
def convOptTsTypeAnn : Option swc.TsType → Option TsTypeDef
  | none => none
  | some t => some (ts_type_ann_to_def t)
termination_by structural t => t

/-- Converts an optional instantiated type-argument list, preserving the
absent-versus-empty distinction. -/
def convOptListTsType : Option (List swc.TsType) → Option (List TsTypeDef)
  | none => none
  | some l => some (convListTsType l)
termination_by structural t => t

/-- Converts tuple elements in order via their `.ty`. -/
def convTupleElems : List swc.TsTupleElement → List TsTypeDef
  | [] => []
  | ⟨ty⟩ :: rest => TsTypeDef.from_ts_type ty :: convTupleElems rest
termination_by structural t => t

/-- Method-entry pass of the signature extractor of `From<&TsTypeLit>`.  The
source's single loop pushes each member into exactly one of four sequences;
it is embedded as four per-sequence passes building the same sequences in
the same member order.  Getters become entries tagged `Getter` with no
parameters, setters entries tagged `Setter` with exactly the one declared
parameter, construct signatures entries named `new`. -/
def extractLitMethods : List swc.TsTypeElement → List LiteralMethodDef
  | [] => []
  | m :: rest =>
    match m with
    | .TsMethodSignature key computed optional params type_ann type_params =>
      LiteralMethodDef.mk (expr_to_name key) swc.MethodKind.Method
        (params.map ts_fn_param_to_param_def) computed optional
        (convOptTsType type_ann)
        (maybe_type_param_decl_to_type_param_defs type_params) :: extractLitMethods rest
    | .TsGetterSignature key computed optional type_ann =>
      LiteralMethodDef.mk (expr_to_name key) swc.MethodKind.Getter []
        computed optional (convOptTsType type_ann) [] :: extractLitMethods rest
    | .TsSetterSignature key computed optional param =>
      LiteralMethodDef.mk (expr_to_name key) swc.MethodKind.Setter
        [ts_fn_param_to_param_def param] computed optional none [] :: extractLitMethods rest
    | .TsConstructSignatureDecl params type_ann type_params =>
      LiteralMethodDef.mk "new" swc.MethodKind.Method
        (params.map ts_fn_param_to_param_def) false false
        (convOptTsType type_ann)
        (maybe_type_param_decl_to_type_param_defs type_params) :: extractLitMethods rest
    | _ => extractLitMethods rest
termination_by structural t => t

/-- Property-entry pass of the signature extractor of `From<&TsTypeLit>`. -/
def extractLitProperties : List swc.TsTypeElement → List LiteralPropertyDef
  | [] => []
  | m :: rest =>
    match m with
    | .TsPropertySignature key computed optional readonly params type_ann type_params =>
      LiteralPropertyDef.mk (expr_to_name key)
        (params.map ts_fn_param_to_param_def) readonly computed optional
        (convOptTsType type_ann)
        (maybe_type_param_decl_to_type_param_defs type_params) :: extractLitProperties rest
    | _ => extractLitProperties rest
termination_by structural t => t

/-- Call-signature pass of the signature extractor of `From<&TsTypeLit>`. -/
def extractLitCallSigs : List swc.TsTypeElement → List LiteralCallSignatureDef
  | [] => []
  | m :: rest =>
    match m with
    | .TsCallSignatureDecl params type_ann type_params =>
      LiteralCallSignatureDef.mk (params.map ts_fn_param_to_param_def)
        (convOptTsType type_ann)
        (maybe_type_param_decl_to_type_param_defs type_params) :: extractLitCallSigs rest
    | _ => extractLitCallSigs rest
termination_by structural t => t

/-- Index-signature pass of the signature extractor of `From<&TsTypeLit>`. -/
def extractLitIndexSigs : List swc.TsTypeElement → List LiteralIndexSignatureDef
  | [] => []
  | m :: rest =>
    match m with
    | .TsIndexSignature readonly params type_ann =>
      LiteralIndexSignatureDef.mk readonly
        (params.map ts_fn_param_to_param_def)
        (convOptTsType type_ann) :: extractLitIndexSigs rest
    | _ => extractLitIndexSigs rest
termination_by structural t => t

/-- Modelled from the spec: the opaque generic-parameter-list builder
`maybe_type_param_decl_to_type_param_defs` of `crate::ts_type_param`
(outside the given fragment), producing one descriptor per declared
parameter with converted constraint and default. -/
def maybe_type_param_decl_to_type_param_defs : Option swc.TsTypeParamDecl → List TsTypeParamDef
  | none => []
  | some (swc.TsTypeParamDecl.mk params) => convTypeParams params
termination_by structural t => t

/-- Converts each declared generic parameter of a list. -/
def convTypeParams : List swc.TsTypeParam → List TsTypeParamDef
  | [] => []
  | p :: rest => from_ts_type_param p :: convTypeParams rest
termination_by structural t => t

/-- Modelled from the spec: conversion of one declared generic parameter by
the opaque builder of `crate::ts_type_param` (outside the given fragment). -/
def from_ts_type_param : swc.TsTypeParam → TsTypeParamDef
  | swc.TsTypeParam.mk name constraint default =>
    TsTypeParamDef.mk name (convOptTsType constraint) (convOptTsType default)
termination_by structural t => t

/-- Node assembly of `From<&TsTypePredicate>`: the repr is the predicate's
own rendering. -/
def mkTypePredicateNode (pred : TsTypePredicateDef) : TsTypeDef :=
  TsTypeDef.mkTypePredicate (tsTypePredicateDefDisplay pred) pred

end

/-- Rust `TsTypeDef::tpl_literal`: converts the interpolated types, keys every
segment by source span, sorts the merged sequence and joins the display
texts (quasis verbatim, interpolations as placeholders) into the repr. -/
def TsTypeDef.tpl_literal (types : List swc.TsType) (quasis : List swc.TplElement) : TsTypeDef :=
  tplFromSegments (tplTypeSegments types ++ tplQuasiSegments quasis)

/-- The full signature extractor of `From<&TsTypeLit>`: the four sequences
of classified member records, in member order. -/
def from_ts_type_lit_members (members : List swc.TsTypeElement) : TsTypeLiteralDef :=
  TsTypeLiteralDef.mk (extractLitMethods members) (extractLitProperties members)
    (extractLitCallSigs members) (extractLitIndexSigs members)

/-- Rust `maybe_type_param_instantiation_to_type_defs`. -/
def maybe_type_param_instantiation_to_type_defs : Option (List swc.TsType) → List TsTypeDef
  | some l => l.map TsTypeDef.from_ts_type
  | none => []

/-- `From<&ArrowExpr> for TsFnOrConstructorDef`: parameters via the opaque
builder, return type from the explicit annotation or the `unknown` keyword;
the body is never read. -/
def TsFnOrConstructorDef.from_arrow_expr : swc.ArrowExpr → TsFnOrConstructorDef
  | swc.ArrowExpr.mk _ params _ return_type type_params =>
    TsFnOrConstructorDef.mk false
      (match return_type with
       | some t => ts_type_ann_to_def t
       | none => TsTypeDef.keywordDef "unknown")
      (params.map pat_to_param_def)
      (maybe_type_param_decl_to_type_param_defs type_params)

/-- `From<&FnExpr> for TsFnOrConstructorDef`: like the arrow case, reading
only the function's parameter patterns, annotation and generics. -/
def TsFnOrConstructorDef.from_fn_expr : swc.FnExpr → TsFnOrConstructorDef
  | swc.FnExpr.mk _ (swc.Function.mk params _ return_type type_params) =>
    TsFnOrConstructorDef.mk false
      (match return_type with
       | some t => ts_type_ann_to_def t
       | none => TsTypeDef.keywordDef "unknown")
      (params.map fun p => pat_to_param_def p.pat)
      (maybe_type_param_decl_to_type_param_defs type_params)

/-- Rust `infer_ts_type_from_arrow_expr`. -/
def infer_ts_type_from_arrow_expr (expr : swc.ArrowExpr) : Option TsTypeDef :=
  some (TsTypeDef.mkFnOrConstructor "" (TsFnOrConstructorDef.from_arrow_expr expr))

/-- Rust `infer_ts_type_from_fn_expr`. -/
def infer_ts_type_from_fn_expr (expr : swc.FnExpr) : Option TsTypeDef :=
  some (TsTypeDef.mkFnOrConstructor "" (TsFnOrConstructorDef.from_fn_expr expr))

/-- Rust `infer_ts_type_from_lit`: scalar literals give the precise literal
type under const context and the widened keyword otherwise; regular
expressions a `RegExp` reference; every other literal no inference. -/
def infer_ts_type_from_lit (lit : swc.Lit) (is_const : Bool) : Option TsTypeDef :=
  match lit with
  | .Num num =>
    if is_const then some (TsTypeDef.number_literal num)
    else some (TsTypeDef.number_with_repr "number")
  | .Str str_ =>
    if is_const then some (TsTypeDef.string_literal str_)
    else some (TsTypeDef.string_with_repr "string")
  | .Bool bool_ =>
    if is_const then some (TsTypeDef.bool_literal bool_)
    else some (TsTypeDef.bool_with_repr "boolean")
  | .BigInt bigint_ =>
    if is_const then some (TsTypeDef.bigint_literal bigint_)
    else some (TsTypeDef.bigint_with_repr "bigint")
  | .Regex exp => some (TsTypeDef.regexp exp)
  | _ => none

/-- Rust `infer_ts_type_from_new_expr`: a simple identifier callee becomes a
type reference of that name carrying any explicit type arguments; any other
callee yields no inference. -/
def infer_ts_type_from_new_expr : swc.NewExpr → Option TsTypeDef
  | swc.NewExpr.mk _ callee type_args =>
    match callee with
    | .Ident sym =>
      some (TsTypeDef.mkTypeRef sym
        (TsTypeRefDef.mk
          (type_args.map fun init =>
            maybe_type_param_instantiation_to_type_defs (some init))
          sym))
    | _ => none

/-- ASCII lowercasing of one character (Rust `to_ascii_lowercase`). -/
def asciiLowerChar (c : Char) : Char :=
  if 'A' ≤ c ∧ c ≤ 'Z' then Char.ofNat (c.toNat + 32) else c

/-- Rust `str::to_ascii_lowercase`. -/
def to_ascii_lowercase (s : String) : String := ⟨s.data.map asciiLowerChar⟩

/-- Rust `infer_ts_type_from_call_expr`: the fixed built-in constructor-call
table. -/
def infer_ts_type_from_call_expr : swc.CallExpr → Option TsTypeDef
  | swc.CallExpr.mk _ callee =>
    match callee with
    | .Expr e =>
      match e with
      | .Ident sym =>
        match sym with
        | "Symbol" | "Number" | "String" | "BigInt" =>
          some (TsTypeDef.keyword_with_repr (to_ascii_lowercase sym) sym)
        | "Date" => some (TsTypeDef.string_with_repr sym)
        | "RegExp" => some (TsTypeDef.regexp sym)
        | _ => none
      | _ => none
    | _ => none

/-- Rust `infer_ts_type_from_tpl`: a single-quasi template under const
context resolves via `tpl_literal` with no interpolations; otherwise it
widens to the `string` keyword. -/
def infer_ts_type_from_tpl : swc.Tpl → Bool → TsTypeDef
  | swc.Tpl.mk _ _ quasis, is_const =>
    if quasis.length == 1 && is_const then
      TsTypeDef.tpl_literal [] quasis
    else
      TsTypeDef.string_with_repr "string"

mutual

/-- Rust `infer_ts_type_from_expr`: the initializer-shape catalog.  Note the
array branch always re-enters array inference with the const flag off. -/
def infer_ts_type_from_expr : swc.Expr → Bool → Option TsTypeDef
  | .Array arr_lit, _ => infer_ts_type_from_arr_lit arr_lit false
  | .Arrow expr, _ => infer_ts_type_from_arrow_expr expr
  | .Fn expr, _ => infer_ts_type_from_fn_expr expr
  | .Lit lit, is_const => infer_ts_type_from_lit lit is_const
  | .New expr, _ => infer_ts_type_from_new_expr expr
  | .Tpl tpl, is_const => some (infer_ts_type_from_tpl tpl is_const)
  | .TsConstAssertion assertion, _ => infer_ts_type_from_const_assertion assertion
  | .Call expr, _ => infer_ts_type_from_call_expr expr
  | _, _ => none
termination_by structural t => t

/-- The element loop of `infer_ts_type_from_arr_lit`: walks the present
elements (elisions are skipped by the source's `flatten`), accumulating
distinct inferred element types in first-seen order via `contains`/push;
`none` encodes the source's early `return` of the `any[]` collapse on a
spread or non-inferable element. -/
def arr_lit_fold : List (Option swc.ExprOrSpread) → Bool → List TsTypeDef → Option (List TsTypeDef)
  | [], _, defs => some defs
  | none :: rest, is_const, defs => arr_lit_fold rest is_const defs
  | some (swc.ExprOrSpread.mk spread e) :: rest, is_const, defs =>
    match spread with
    | none =>
      match infer_ts_type_from_expr e is_const with
      | some ts_type =>
        arr_lit_fold rest is_const
          (if defs.contains ts_type then defs else defs ++ [ts_type])
      | none => none
    | some _ => none
termination_by structural t => t

/-- Rust `infer_ts_type_from_arr_lit`: collapse to `any[]` on a spread or
non-inferable element, else wrap the distinct element types (one type gives
an array of it, two or more an array of their union, none no inference). -/
def infer_ts_type_from_arr_lit : swc.ArrayLit → Bool → Option TsTypeDef
  | swc.ArrayLit.mk _ elems, is_const =>
    match arr_lit_fold elems is_const [] with
    | none => some anyArrayTsTypeDef
    | some defs =>
      match defs with
      | [d] => some (TsTypeDef.mkArray "" d)
      | _ :: _ :: _ => some (TsTypeDef.mkArray "" (TsTypeDef.mkUnion "" defs))
      | [] => none
termination_by structural t => t

/-- Rust `infer_ts_type_from_const_assertion`: re-runs inference on the inner
expression with the const flag forced on; an inner array literal gets the
array-specific const handling.  The source's fallback arm is the single call
`infer_ts_type_from_expr(expr, true)`; it is written here with that call's
dispatch unfolded once (the array arm never overlaps), which is proved equal
to the direct call in `infer_const_assertion_eq` below. -/
def infer_ts_type_from_const_assertion : swc.TsConstAssertion → Option TsTypeDef
  | swc.TsConstAssertion.mk _ e =>
    match e with
    | .Array arr_lit => infer_ts_type_from_arr_lit arr_lit true
    | .Arrow expr => infer_ts_type_from_arrow_expr expr
    | .Fn expr => infer_ts_type_from_fn_expr expr
    | .Lit lit => infer_ts_type_from_lit lit true
    | .New expr => infer_ts_type_from_new_expr expr
    | .Tpl tpl => some (infer_ts_type_from_tpl tpl true)
    | .TsConstAssertion assertion => infer_ts_type_from_const_assertion assertion
    | .Call expr => infer_ts_type_from_call_expr expr
    | _ => none
termination_by structural t => t

end

/-- Rust `infer_simple_ts_type_from_var_decl`: inference of the declarator's
initializer when present, no inference otherwise. -/
def infer_simple_ts_type_from_var_decl (decl : swc.VarDeclarator) (is_const : Bool) : Option TsTypeDef :=
  match decl.init with
  | some init_expr => infer_ts_type_from_expr init_expr is_const
  | none => none

/-- Spread marker accessor of an array-literal element. -/
def swc.ExprOrSpread.spread : swc.ExprOrSpread → Option Span
  | swc.ExprOrSpread.mk s _ => s

/-- Expression accessor of an array-literal element. -/
def swc.ExprOrSpread.expr : swc.ExprOrSpread → swc.Expr
  | swc.ExprOrSpread.mk _ e => e

/-- Methods accessor of a structural-type-literal payload. -/
def TsTypeLiteralDef.methods : TsTypeLiteralDef → List LiteralMethodDef
  | TsTypeLiteralDef.mk m _ _ _ => m

/-- Properties accessor of a structural-type-literal payload. -/
def TsTypeLiteralDef.properties : TsTypeLiteralDef → List LiteralPropertyDef
  | TsTypeLiteralDef.mk _ p _ _ => p

/-- Call-signatures accessor of a structural-type-literal payload. -/
def TsTypeLiteralDef.call_signatures : TsTypeLiteralDef → List LiteralCallSignatureDef
  | TsTypeLiteralDef.mk _ _ c _ => c

/-- Index-signatures accessor of a structural-type-literal payload. -/
def TsTypeLiteralDef.index_signatures : TsTypeLiteralDef → List LiteralIndexSignatureDef
  | TsTypeLiteralDef.mk _ _ _ i => i

/-- Return-type accessor of a function-or-constructor payload. -/
def TsFnOrConstructorDef.ts_type : TsFnOrConstructorDef → TsTypeDef
  | TsFnOrConstructorDef.mk _ t _ _ => t

/-- Constructor-flag accessor of a function-or-constructor payload. -/
def TsFnOrConstructorDef.constructor : TsFnOrConstructorDef → Bool
  | TsFnOrConstructorDef.mk c _ _ _ => c

/-- Number of populated variant-specific payload fields of a node (of the 21
payload slots, one per kind). -/
def payloadCount : TsTypeDef → Nat
  | ⟨_, _, kw, li, tr, un, it, ar, tu, tow, pa, re, op, tq, th, fc, co, inf, ia, mt, tl, tp, im⟩ =>
    kw.isSome.toNat + li.isSome.toNat + tr.isSome.toNat + un.isSome.toNat +
    it.isSome.toNat + ar.isSome.toNat + tu.isSome.toNat + tow.isSome.toNat +
    pa.isSome.toNat + re.isSome.toNat + op.isSome.toNat + tq.isSome.toNat +
    th.isSome.toNat + fc.isSome.toNat + co.isSome.toNat + inf.isSome.toNat +
    ia.isSome.toNat + mt.isSome.toNat + tl.isSome.toNat + tp.isSome.toNat +
    im.isSome.toNat

/-- Whether the payload slot belonging to the node's kind tag is populated
(false when the node has no kind). -/
def kindPayloadPresent (d : TsTypeDef) : Bool :=
  match d.kind with
  | none => false
  | some .Keyword => d.keyword.isSome
  | some .Literal => d.literal.isSome
  | some .TypeRef => d.type_ref.isSome
  | some .Union => d.union.isSome
  | some .Intersection => d.intersection.isSome
  | some .Array => d.array.isSome
  | some .Tuple => d.tuple.isSome
  | some .TypeOperator => d.type_operator.isSome
  | some .Parenthesized => d.parenthesized.isSome
  | some .Rest => d.rest.isSome
  | some .Optional => d.optional.isSome
  | some .TypeQuery => d.type_query.isSome
  | some .This => d.this_.isSome
  | some .FnOrConstructor => d.fn_or_constructor.isSome
  | some .Conditional => d.conditional_type.isSome
  | some .Infer => d.infer.isSome
  | some .IndexedAccess => d.indexed_access.isSome
  | some .Mapped => d.mapped_type.isSome
  | some .TypeLiteral => d.type_literal.isSome
  | some .TypePredicate => d.type_predicate.isSome
  | some .ImportType => d.import_type.isSome

/-- The per-node payload invariant: exactly one payload slot populated, and
it is the one matching the kind tag. -/
def payloadOk (d : TsTypeDef) : Prop :=
  payloadCount d = 1 ∧ kindPayloadPresent d = true

mutual

/-- Hereditary well-formedness of a canonical node: the payload invariant at
the node and at every descendant through every payload structure. -/
def WfTsTypeDef : TsTypeDef → Prop
  | ⟨r, k, kw, li, tr, un, it, ar, tu, tow, pa, re, op, tq, th, fc, co, inf, ia, mt, tl, tp, im⟩ =>
    payloadOk ⟨r, k, kw, li, tr, un, it, ar, tu, tow, pa, re, op, tq, th, fc, co, inf, ia, mt, tl, tp, im⟩ ∧
    WfOptLiteralDef li ∧ WfOptTsTypeRefDef tr ∧ WfOptListTsTypeDef un ∧
    WfOptListTsTypeDef it ∧ WfOptTsTypeDef ar ∧ WfOptListTsTypeDef tu ∧
    WfOptTsTypeOperatorDef tow ∧ WfOptTsTypeDef pa ∧ WfOptTsTypeDef re ∧
    WfOptTsTypeDef op ∧ WfOptTsFnOrConstructorDef fc ∧ WfOptTsConditionalDef co ∧
    WfOptTsInferDef inf ∧ WfOptTsIndexedAccessDef ia ∧ WfOptTsMappedTypeDef mt ∧
    WfOptTsTypeLiteralDef tl ∧ WfOptTsTypePredicateDef tp ∧ WfOptTsImportTypeDef im
termination_by structural t => t

/-- Well-formedness of an optional node. -/
def WfOptTsTypeDef : Option TsTypeDef → Prop
  | none => True
  | some d => WfTsTypeDef d
termination_by structural t => t

/-- Well-formedness of each node of a list. -/
def WfListTsTypeDef : List TsTypeDef → Prop
  | [] => True
  | d :: ds => WfTsTypeDef d ∧ WfListTsTypeDef ds
termination_by structural t => t

/-- Well-formedness of an optional node list. -/
def WfOptListTsTypeDef : Option (List TsTypeDef) → Prop
  | none => True
  | some l => WfListTsTypeDef l
termination_by structural t => t

/-- Well-formedness through a literal payload (its template segments). -/
def WfLiteralDef : LiteralDef → Prop
  | ⟨_, _, _, tts, _⟩ => WfOptListTsTypeDef tts
termination_by structural t => t

/-- Well-formedness through an optional literal payload. -/
def WfOptLiteralDef : Option LiteralDef → Prop
  | none => True
  | some l => WfLiteralDef l
termination_by structural t => t

/-- Well-formedness through a type-reference payload (its type arguments). -/
def WfTsTypeRefDef : TsTypeRefDef → Prop
  | ⟨tps, _⟩ => WfOptListTsTypeDef tps
termination_by structural t => t

/-- Well-formedness through an optional type-reference payload. -/
def WfOptTsTypeRefDef : Option TsTypeRefDef → Prop
  | none => True
  | some r => WfTsTypeRefDef r
termination_by structural t => t

/-- Well-formedness through a type-operator payload. -/
def WfTsTypeOperatorDef : TsTypeOperatorDef → Prop
  | ⟨_, t⟩ => WfTsTypeDef t
termination_by structural t => t

/-- Well-formedness through an optional type-operator payload. -/
def WfOptTsTypeOperatorDef : Option TsTypeOperatorDef → Prop
  | none => True
  | some o => WfTsTypeOperatorDef o
termination_by structural t => t

/-- Well-formedness through a function-or-constructor payload. -/
def WfTsFnOrConstructorDef : TsFnOrConstructorDef → Prop
  | ⟨_, t, _, tps⟩ => WfTsTypeDef t ∧ WfListTsTypeParamDef tps
termination_by structural t => t

/-- Well-formedness through an optional function-or-constructor payload. -/
def WfOptTsFnOrConstructorDef : Option TsFnOrConstructorDef → Prop
  | none => True
  | some f => WfTsFnOrConstructorDef f
termination_by structural t => t

/-- Well-formedness through a generic-parameter descriptor. -/
def WfTsTypeParamDef : TsTypeParamDef → Prop
  | ⟨_, c, d⟩ => WfOptTsTypeDef c ∧ WfOptTsTypeDef d
termination_by structural t => t

/-- Well-formedness through a list of generic-parameter descriptors. -/
def WfListTsTypeParamDef : List TsTypeParamDef → Prop
  | [] => True
  | p :: ps => WfTsTypeParamDef p ∧ WfListTsTypeParamDef ps
termination_by structural t => t

/-- Well-formedness through a conditional payload. -/
def WfTsConditionalDef : TsConditionalDef → Prop
  | ⟨c, e, t, f⟩ => WfTsTypeDef c ∧ WfTsTypeDef e ∧ WfTsTypeDef t ∧ WfTsTypeDef f
termination_by structural t => t

/-- Well-formedness through an optional conditional payload. -/
def WfOptTsConditionalDef : Option TsConditionalDef → Prop
  | none => True
  | some c => WfTsConditionalDef c
termination_by structural t => t

/-- Well-formedness through an infer payload. -/
def WfTsInferDef : TsInferDef → Prop
  | ⟨tp⟩ => WfTsTypeParamDef tp
termination_by structural t => t

/-- Well-formedness through an optional infer payload. -/
def WfOptTsInferDef : Option TsInferDef → Prop
  | none => True
  | some i => WfTsInferDef i
termination_by structural t => t

/-- Well-formedness through an indexed-access payload. -/
def WfTsIndexedAccessDef : TsIndexedAccessDef → Prop
  | ⟨_, o, i⟩ => WfTsTypeDef o ∧ WfTsTypeDef i
termination_by structural t => t

/-- Well-formedness through an optional indexed-access payload. -/
def WfOptTsIndexedAccessDef : Option TsIndexedAccessDef → Prop
  | none => True
  | some i => WfTsIndexedAccessDef i
termination_by structural t => t

/-- Well-formedness through a mapped-type payload. -/
def WfTsMappedTypeDef : TsMappedTypeDef → Prop
  | ⟨_, tp, nt, _, t⟩ => WfTsTypeParamDef tp ∧ WfOptTsTypeDef nt ∧ WfOptTsTypeDef t
termination_by structural t => t

/-- Well-formedness through an optional mapped-type payload. -/
def WfOptTsMappedTypeDef : Option TsMappedTypeDef → Prop
  | none => True
  | some m => WfTsMappedTypeDef m
termination_by structural t => t

/-- Well-formedness through a method entry. -/
def WfLiteralMethodDef : LiteralMethodDef → Prop
  | ⟨_, _, _, _, _, rt, tps⟩ => WfOptTsTypeDef rt ∧ WfListTsTypeParamDef tps
termination_by structural t => t

/-- Well-formedness through a list of method entries. -/
def WfListLiteralMethodDef : List LiteralMethodDef → Prop
  | [] => True
  | m :: ms => WfLiteralMethodDef m ∧ WfListLiteralMethodDef ms
termination_by structural t => t

/-- Well-formedness through a property entry. -/
def WfLiteralPropertyDef : LiteralPropertyDef → Prop
  | ⟨_, _, _, _, _, t, tps⟩ => WfOptTsTypeDef t ∧ WfListTsTypeParamDef tps
termination_by structural t => t

/-- Well-formedness through a list of property entries. -/
def WfListLiteralPropertyDef : List LiteralPropertyDef → Prop
  | [] => True
  | p :: ps => WfLiteralPropertyDef p ∧ WfListLiteralPropertyDef ps
termination_by structural t => t

/-- Well-formedness through a call-signature entry. -/
def WfLiteralCallSignatureDef : LiteralCallSignatureDef → Prop
  | ⟨_, t, tps⟩ => WfOptTsTypeDef t ∧ WfListTsTypeParamDef tps
termination_by structural t => t

/-- Well-formedness through a list of call-signature entries. -/
def WfListLiteralCallSignatureDef : List LiteralCallSignatureDef → Prop
  | [] => True
  | c :: cs => WfLiteralCallSignatureDef c ∧ WfListLiteralCallSignatureDef cs
termination_by structural t => t

/-- Well-formedness through an index-signature entry. -/
def WfLiteralIndexSignatureDef : LiteralIndexSignatureDef → Prop
  | ⟨_, _, t⟩ => WfOptTsTypeDef t
termination_by structural t => t

/-- Well-formedness through a list of index-signature entries. -/
def WfListLiteralIndexSignatureDef : List LiteralIndexSignatureDef → Prop
  | [] => True
  | i :: iss => WfLiteralIndexSignatureDef i ∧ WfListLiteralIndexSignatureDef iss
termination_by structural t => t

/-- Well-formedness through a structural-type-literal payload. -/
def WfTsTypeLiteralDef : TsTypeLiteralDef → Prop
  | ⟨ms, ps, cs, iss⟩ =>
    WfListLiteralMethodDef ms ∧ WfListLiteralPropertyDef ps ∧
    WfListLiteralCallSignatureDef cs ∧ WfListLiteralIndexSignatureDef iss
termination_by structural t => t

/-- Well-formedness through an optional structural-type-literal payload. -/
def WfOptTsTypeLiteralDef : Option TsTypeLiteralDef → Prop
  | none => True
  | some l => WfTsTypeLiteralDef l
termination_by structural t => t

/-- Well-formedness through a type-predicate payload. -/
def WfTsTypePredicateDef : TsTypePredicateDef → Prop
  | ⟨_, _, t⟩ => WfOptTsTypeDef t
termination_by structural t => t

/-- Well-formedness through an optional type-predicate payload. -/
def WfOptTsTypePredicateDef : Option TsTypePredicateDef → Prop
  | none => True
  | some p => WfTsTypePredicateDef p
termination_by structural t => t

/-- Well-formedness through an import-type payload. -/
def WfTsImportTypeDef : TsImportTypeDef → Prop
  | ⟨_, _, tps⟩ => WfOptListTsTypeDef tps
termination_by structural t => t

/-- Well-formedness through an optional import-type payload. -/
def WfOptTsImportTypeDef : Option TsImportTypeDef → Prop
  | none => True
  | some i => WfTsImportTypeDef i
termination_by structural t => t

end

/-- Array-literal inference restated from the specification's words: if any
present element is a spread or is itself non-inferable, collapse to `any[]`;
otherwise collect the inferred element types, removing exact duplicates in
first-seen order, and wrap (zero distinct types no inference, one an array
of it, two or more an array of their union). -/
def inferArrLitSpec : swc.ArrayLit → Bool → Option TsTypeDef
  | swc.ArrayLit.mk _ elems, is_const =>
    let present := elems.filterMap id
    if present.any fun e =>
        e.spread.isSome || (infer_ts_type_from_expr e.expr is_const).isNone then
      some anyArrayTsTypeDef
    else
      match (present.filterMap fun e => infer_ts_type_from_expr e.expr is_const).foldl
          (fun acc t => if acc.contains t then acc else acc ++ [t]) [] with
      | [] => none
      | [d] => some (TsTypeDef.mkArray "" d)
      | ds => some (TsTypeDef.mkArray "" (TsTypeDef.mkUnion "" ds))

/-- The constructor-call inference table restated from the claim: a plain
identifier callee `Symbol`, `Number`, `String` or `BigInt` gives the
corresponding lowercase keyword with the callee name as repr; `Date` gives
the `string` keyword; `RegExp` a `RegExp` reference; everything else no
inference. -/
def callTableSpec : swc.CallExpr → Option TsTypeDef
  | swc.CallExpr.mk _ (swc.Callee.Expr (swc.Expr.Ident sym)) =>
    if sym = "Symbol" ∨ sym = "Number" ∨ sym = "String" ∨ sym = "BigInt" then
      some (TsTypeDef.keyword_with_repr (to_ascii_lowercase sym) sym)
    else if sym = "Date" then some (TsTypeDef.string_with_repr "Date")
    else if sym = "RegExp" then some (TsTypeDef.regexp "RegExp")
    else none
  | _ => none

/-- The supported initializer-shape catalog of the inference entry point. -/
def supportedShape : swc.Expr → Bool
  | .Array _ => true
  | .Arrow _ => true
  | .Fn _ => true
  | .Lit _ => true
  | .New _ => true
  | .Tpl _ => true
  | .TsConstAssertion _ => true
  | .Call _ => true
  | _ => false

/-- Classification summary of a method entry: name, kind tag, parameter
count. -/
def methodSummary : LiteralMethodDef → String × swc.MethodKind × Nat
  | ⟨n, k, p, _, _, _, _⟩ => (n, k, p.length)

/-- Expected method-entry summary of one type-literal member, restated from
the claim: a getter gives a `Getter` entry with zero parameters, a setter a
`Setter` entry with exactly one, a method a `Method` entry, a construct
signature a `Method` entry named `new`; other members give none. -/
def memberMethodSummary : swc.TsTypeElement → Option (String × swc.MethodKind × Nat)
  | .TsMethodSignature key _ _ params _ _ =>
    some (expr_to_name key, swc.MethodKind.Method, params.length)
  | .TsGetterSignature key _ _ _ => some (expr_to_name key, swc.MethodKind.Getter, 0)
  | .TsSetterSignature key _ _ _ => some (expr_to_name key, swc.MethodKind.Setter, 1)
  | .TsConstructSignatureDecl params _ _ =>
    some ("new", swc.MethodKind.Method, params.length)
  | _ => none

/-- Whether a member is a property signature. -/
def memberIsProperty : swc.TsTypeElement → Bool
  | .TsPropertySignature .. => true
  | _ => false

/-- Whether a member is a call signature. -/
def memberIsCallSig : swc.TsTypeElement → Bool
  | .TsCallSignatureDecl .. => true
  | _ => false

/-- Whether a member is an index signature. -/
def memberIsIndexSig : swc.TsTypeElement → Bool
  | .TsIndexSignature .. => true
  | _ => false

/-- One interpolated-type segment of a template (span key, converted node,
placeholder text). -/
def tplTypeSeg (t : swc.TsType) : Span × TsTypeDef × String :=
  (get_span_from_type t, TsTypeDef.from_ts_type t,
    "$\x7b" ++ tsTypeDefDisplay (TsTypeDef.from_ts_type t) ++ "\x7d")

/-- One quasi segment of a template (span key, string-literal node, raw
text). -/
def tplQuasiSeg (q : swc.TplElement) : Span × TsTypeDef × String :=
  (q.span, TsTypeDef.literalDef q.raw
    (LiteralDef.mk LiteralDefKind.String none (some q.raw) none none), q.raw)

/-- The merged, span-sorted segment sequence of a template-literal node. -/
def tplMergedSegments (types : List swc.TsType) (quasis : List swc.TplElement) :
    List (Span × TsTypeDef × String) :=
  List.insertionSort tplSegLE (tplTypeSegments types ++ tplQuasiSegments quasis)

/-- The placeholder text of one interpolated type. -/
def tplPlaceholder (t : swc.TsType) : String :=
  "$\x7b" ++ tsTypeDefDisplay (TsTypeDef.from_ts_type t) ++ "\x7d"

/-- The expected round-trip text of a template: the original quasis joined
with one placeholder per interpolation, in source order (quasi first,
alternating). -/
def tplExpected : List swc.TplElement → List swc.TsType → String
  | [], ts => concatStrs (ts.map tplPlaceholder)
  | q :: qs, [] => q.raw ++ tplExpected qs []
  | q :: qs, t :: ts => q.raw ++ tplPlaceholder t ++ tplExpected qs ts

/-- The source-order interleaving of quasi and type segments (quasi first,
alternating). -/
def tplInterleaveSegs : List swc.TplElement → List swc.TsType → List (Span × TsTypeDef × String)
  | [], ts => ts.map tplTypeSeg
  | q :: qs, [] => tplQuasiSeg q :: tplInterleaveSegs qs []
  | q :: qs, t :: ts => tplQuasiSeg q :: tplTypeSeg t :: tplInterleaveSegs qs ts

/-- The interleaved span sequence of a template (quasi first, alternating). -/
def tplInterleaveSpans : List swc.TplElement → List swc.TsType → List Span
  | [], ts => ts.map get_span_from_type
  | q :: qs, [] => q.span :: tplInterleaveSpans qs []
  | q :: qs, t :: ts => q.span :: get_span_from_type t :: tplInterleaveSpans qs ts

instance : IsTotal (Span × TsTypeDef × String) tplSegLE :=
  ⟨fun a b => Nat.le_total a.1 b.1⟩

instance : IsTrans (Span × TsTypeDef × String) tplSegLE :=
  ⟨fun _ _ _ hab hbc => Nat.le_trans hab hbc⟩


mutual
theorem tsTypeDefBeq_eq : ∀ a b : TsTypeDef, tsTypeDefBeq a b = true ↔ a = b
  | ⟨r, k, kw, li, tr, un, it, ar, tu, tow, pa, re, op, tq, th, fc, co, inf, ia, mt, tl, tp, im⟩,
    ⟨r', k', kw', li', tr', un', it', ar', tu', tow', pa', re', op', tq', th', fc', co', inf', ia', mt', tl', tp', im'⟩ => by
    change (decide (r = r') && decide (k = k') && decide (kw = kw') &&
      optLiteralDefBeq li li' && optTsTypeRefDefBeq tr tr' &&
      optListTsTypeDefBeq un un' && optListTsTypeDefBeq it it' &&
      optTsTypeDefBeq ar ar' && optListTsTypeDefBeq tu tu' &&
      optTsTypeOperatorDefBeq tow tow' && optTsTypeDefBeq pa pa' &&
      optTsTypeDefBeq re re' && optTsTypeDefBeq op op' &&
      decide (tq = tq') && decide (th = th') &&
      optTsFnOrConstructorDefBeq fc fc' && optTsConditionalDefBeq co co' &&
      optTsInferDefBeq inf inf' && optTsIndexedAccessDefBeq ia ia' &&
      optTsMappedTypeDefBeq mt mt' && optTsTypeLiteralDefBeq tl tl' &&
      optTsTypePredicateDefBeq tp tp' && optTsImportTypeDefBeq im im') = true ↔ _
    simp only [Bool.and_eq_true, decide_eq_true_eq, TsTypeDef.mk.injEq,
      optLiteralDefBeq_eq li li', optTsTypeRefDefBeq_eq tr tr',
      optListTsTypeDefBeq_eq un un', optListTsTypeDefBeq_eq it it',
      optTsTypeDefBeq_eq ar ar', optListTsTypeDefBeq_eq tu tu',
      optTsTypeOperatorDefBeq_eq tow tow', optTsTypeDefBeq_eq pa pa',
      optTsTypeDefBeq_eq re re', optTsTypeDefBeq_eq op op',
      optTsFnOrConstructorDefBeq_eq fc fc', optTsConditionalDefBeq_eq co co',
      optTsInferDefBeq_eq inf inf', optTsIndexedAccessDefBeq_eq ia ia',
      optTsMappedTypeDefBeq_eq mt mt', optTsTypeLiteralDefBeq_eq tl tl',
      optTsTypePredicateDefBeq_eq tp tp', optTsImportTypeDefBeq_eq im im',
      and_assoc]
termination_by structural a => a

theorem optTsTypeDefBeq_eq : ∀ a b, optTsTypeDefBeq a b = true ↔ a = b
  | none, none => ⟨fun _ => rfl, fun _ => rfl⟩
  | none, some _ => ⟨fun h => Bool.noConfusion h, fun h => Option.noConfusion h⟩
  | some _, none => ⟨fun h => Bool.noConfusion h, fun h => Option.noConfusion h⟩
  | some x, some y => (tsTypeDefBeq_eq x y).trans ⟨congrArg some, Option.some.inj⟩
termination_by structural a => a

theorem listTsTypeDefBeq_eq : ∀ a b, listTsTypeDefBeq a b = true ↔ a = b
  | [], [] => ⟨fun _ => rfl, fun _ => rfl⟩
  | [], _ :: _ => ⟨fun h => Bool.noConfusion h, fun h => List.noConfusion h⟩
  | _ :: _, [] => ⟨fun h => Bool.noConfusion h, fun h => List.noConfusion h⟩
  | x :: xs, y :: ys => by
    change (tsTypeDefBeq x y && listTsTypeDefBeq xs ys) = true ↔ _
    simp only [Bool.and_eq_true, tsTypeDefBeq_eq x y, listTsTypeDefBeq_eq xs ys,
      List.cons_eq_cons]
termination_by structural a => a

theorem optListTsTypeDefBeq_eq : ∀ a b, optListTsTypeDefBeq a b = true ↔ a = b
  | none, none => ⟨fun _ => rfl, fun _ => rfl⟩
  | none, some _ => ⟨fun h => Bool.noConfusion h, fun h => Option.noConfusion h⟩
  | some _, none => ⟨fun h => Bool.noConfusion h, fun h => Option.noConfusion h⟩
  | some x, some y => (listTsTypeDefBeq_eq x y).trans ⟨congrArg some, Option.some.inj⟩
termination_by structural a => a

theorem literalDefBeq_eq : ∀ a b : LiteralDef, literalDefBeq a b = true ↔ a = b
  | ⟨k, n, s, t, b⟩, ⟨k', n', s', t', b'⟩ => by
    change (decide (k = k') && decide (n = n') && decide (s = s') &&
      optListTsTypeDefBeq t t' && decide (b = b')) = true ↔ _
    simp only [Bool.and_eq_true, decide_eq_true_eq, LiteralDef.mk.injEq,
      optListTsTypeDefBeq_eq t t', and_assoc]
termination_by structural a => a

theorem optLiteralDefBeq_eq : ∀ a b, optLiteralDefBeq a b = true ↔ a = b
  | none, none => ⟨fun _ => rfl, fun _ => rfl⟩
  | none, some _ => ⟨fun h => Bool.noConfusion h, fun h => Option.noConfusion h⟩
  | some _, none => ⟨fun h => Bool.noConfusion h, fun h => Option.noConfusion h⟩
  | some x, some y => (literalDefBeq_eq x y).trans ⟨congrArg some, Option.some.inj⟩
termination_by structural a => a

theorem tsTypeRefDefBeq_eq : ∀ a b : TsTypeRefDef, tsTypeRefDefBeq a b = true ↔ a = b
  | ⟨tpp, n⟩, ⟨tpp', n'⟩ => by
    change (optListTsTypeDefBeq tpp tpp' && decide (n = n')) = true ↔ _
    simp only [Bool.and_eq_true, decide_eq_true_eq, TsTypeRefDef.mk.injEq,
      optListTsTypeDefBeq_eq tpp tpp']
termination_by structural a => a

theorem optTsTypeRefDefBeq_eq : ∀ a b, optTsTypeRefDefBeq a b = true ↔ a = b
  | none, none => ⟨fun _ => rfl, fun _ => rfl⟩
  | none, some _ => ⟨fun h => Bool.noConfusion h, fun h => Option.noConfusion h⟩
  | some _, none => ⟨fun h => Bool.noConfusion h, fun h => Option.noConfusion h⟩
  | some x, some y => (tsTypeRefDefBeq_eq x y).trans ⟨congrArg some, Option.some.inj⟩
termination_by structural a => a

theorem tsTypeOperatorDefBeq_eq : ∀ a b : TsTypeOperatorDef, tsTypeOperatorDefBeq a b = true ↔ a = b
  | ⟨o, t⟩, ⟨o', t'⟩ => by
    change (decide (o = o') && tsTypeDefBeq t t') = true ↔ _
    simp only [Bool.and_eq_true, decide_eq_true_eq, TsTypeOperatorDef.mk.injEq,
      tsTypeDefBeq_eq t t']
termination_by structural a => a

theorem optTsTypeOperatorDefBeq_eq : ∀ a b, optTsTypeOperatorDefBeq a b = true ↔ a = b
  | none, none => ⟨fun _ => rfl, fun _ => rfl⟩
  | none, some _ => ⟨fun h => Bool.noConfusion h, fun h => Option.noConfusion h⟩
  | some _, none => ⟨fun h => Bool.noConfusion h, fun h => Option.noConfusion h⟩
  | some x, some y => (tsTypeOperatorDefBeq_eq x y).trans ⟨congrArg some, Option.some.inj⟩
termination_by structural a => a

theorem tsFnOrConstructorDefBeq_eq : ∀ a b : TsFnOrConstructorDef, tsFnOrConstructorDefBeq a b = true ↔ a = b
  | ⟨c, t, p, tps⟩, ⟨c', t', p', tps'⟩ => by
    change (decide (c = c') && tsTypeDefBeq t t' && decide (p = p') &&
      listTsTypeParamDefBeq tps tps') = true ↔ _
    simp only [Bool.and_eq_true, decide_eq_true_eq, TsFnOrConstructorDef.mk.injEq,
      tsTypeDefBeq_eq t t', listTsTypeParamDefBeq_eq tps tps', and_assoc]
termination_by structural a => a

theorem optTsFnOrConstructorDefBeq_eq : ∀ a b, optTsFnOrConstructorDefBeq a b = true ↔ a = b
  | none, none => ⟨fun _ => rfl, fun _ => rfl⟩
  | none, some _ => ⟨fun h => Bool.noConfusion h, fun h => Option.noConfusion h⟩
  | some _, none => ⟨fun h => Bool.noConfusion h, fun h => Option.noConfusion h⟩
  | some x, some y => (tsFnOrConstructorDefBeq_eq x y).trans ⟨congrArg some, Option.some.inj⟩
termination_by structural a => a

theorem tsTypeParamDefBeq_eq : ∀ a b : TsTypeParamDef, tsTypeParamDefBeq a b = true ↔ a = b
  | ⟨n, c, d⟩, ⟨n', c', d'⟩ => by
    change (decide (n = n') && optTsTypeDefBeq c c' && optTsTypeDefBeq d d') = true ↔ _
    simp only [Bool.and_eq_true, decide_eq_true_eq, TsTypeParamDef.mk.injEq,
      optTsTypeDefBeq_eq c c', optTsTypeDefBeq_eq d d', and_assoc]
termination_by structural a => a

theorem listTsTypeParamDefBeq_eq : ∀ a b, listTsTypeParamDefBeq a b = true ↔ a = b
  | [], [] => ⟨fun _ => rfl, fun _ => rfl⟩
  | [], _ :: _ => ⟨fun h => Bool.noConfusion h, fun h => List.noConfusion h⟩
  | _ :: _, [] => ⟨fun h => Bool.noConfusion h, fun h => List.noConfusion h⟩
  | x :: xs, y :: ys => by
    change (tsTypeParamDefBeq x y && listTsTypeParamDefBeq xs ys) = true ↔ _
    simp only [Bool.and_eq_true, tsTypeParamDefBeq_eq x y,
      listTsTypeParamDefBeq_eq xs ys, List.cons_eq_cons]
termination_by structural a => a

theorem tsConditionalDefBeq_eq : ∀ a b : TsConditionalDef, tsConditionalDefBeq a b = true ↔ a = b
  | ⟨c, e, t, f⟩, ⟨c', e', t', f'⟩ => by
    change (tsTypeDefBeq c c' && tsTypeDefBeq e e' && tsTypeDefBeq t t' &&
      tsTypeDefBeq f f') = true ↔ _
    simp only [Bool.and_eq_true, TsConditionalDef.mk.injEq, tsTypeDefBeq_eq c c',
      tsTypeDefBeq_eq e e', tsTypeDefBeq_eq t t', tsTypeDefBeq_eq f f', and_assoc]
termination_by structural a => a

theorem optTsConditionalDefBeq_eq : ∀ a b, optTsConditionalDefBeq a b = true ↔ a = b
  | none, none => ⟨fun _ => rfl, fun _ => rfl⟩
  | none, some _ => ⟨fun h => Bool.noConfusion h, fun h => Option.noConfusion h⟩
  | some _, none => ⟨fun h => Bool.noConfusion h, fun h => Option.noConfusion h⟩
  | some x, some y => (tsConditionalDefBeq_eq x y).trans ⟨congrArg some, Option.some.inj⟩
termination_by structural a => a

theorem tsInferDefBeq_eq : ∀ a b : TsInferDef, tsInferDefBeq a b = true ↔ a = b
  | ⟨tpq⟩, ⟨tpq'⟩ => by
    change tsTypeParamDefBeq tpq tpq' = true ↔ _
    simp only [TsInferDef.mk.injEq, tsTypeParamDefBeq_eq tpq tpq']
termination_by structural a => a

theorem optTsInferDefBeq_eq : ∀ a b, optTsInferDefBeq a b = true ↔ a = b
  | none, none => ⟨fun _ => rfl, fun _ => rfl⟩
  | none, some _ => ⟨fun h => Bool.noConfusion h, fun h => Option.noConfusion h⟩
  | some _, none => ⟨fun h => Bool.noConfusion h, fun h => Option.noConfusion h⟩
  | some x, some y => (tsInferDefBeq_eq x y).trans ⟨congrArg some, Option.some.inj⟩
termination_by structural a => a

theorem tsImportTypeDefBeq_eq : ∀ a b : TsImportTypeDef, tsImportTypeDefBeq a b = true ↔ a = b
  | ⟨s, q, tpp⟩, ⟨s', q', tpp'⟩ => by
    change (decide (s = s') && decide (q = q') && optListTsTypeDefBeq tpp tpp') = true ↔ _
    simp only [Bool.and_eq_true, decide_eq_true_eq, TsImportTypeDef.mk.injEq,
      optListTsTypeDefBeq_eq tpp tpp', and_assoc]
termination_by structural a => a

theorem optTsImportTypeDefBeq_eq : ∀ a b, optTsImportTypeDefBeq a b = true ↔ a = b
  | none, none => ⟨fun _ => rfl, fun _ => rfl⟩
  | none, some _ => ⟨fun h => Bool.noConfusion h, fun h => Option.noConfusion h⟩
  | some _, none => ⟨fun h => Bool.noConfusion h, fun h => Option.noConfusion h⟩
  | some x, some y => (tsImportTypeDefBeq_eq x y).trans ⟨congrArg some, Option.some.inj⟩
termination_by structural a => a

theorem tsIndexedAccessDefBeq_eq : ∀ a b : TsIndexedAccessDef, tsIndexedAccessDefBeq a b = true ↔ a = b
  | ⟨r, o, i⟩, ⟨r', o', i'⟩ => by
    change (decide (r = r') && tsTypeDefBeq o o' && tsTypeDefBeq i i') = true ↔ _
    simp only [Bool.and_eq_true, decide_eq_true_eq, TsIndexedAccessDef.mk.injEq,
      tsTypeDefBeq_eq o o', tsTypeDefBeq_eq i i', and_assoc]
termination_by structural a => a

theorem optTsIndexedAccessDefBeq_eq : ∀ a b, optTsIndexedAccessDefBeq a b = true ↔ a = b
  | none, none => ⟨fun _ => rfl, fun _ => rfl⟩
  | none, some _ => ⟨fun h => Bool.noConfusion h, fun h => Option.noConfusion h⟩
  | some _, none => ⟨fun h => Bool.noConfusion h, fun h => Option.noConfusion h⟩
  | some x, some y => (tsIndexedAccessDefBeq_eq x y).trans ⟨congrArg some, Option.some.inj⟩
termination_by structural a => a

theorem tsMappedTypeDefBeq_eq : ∀ a b : TsMappedTypeDef, tsMappedTypeDefBeq a b = true ↔ a = b
  | ⟨r, tpq, nt, o, t⟩, ⟨r', tpq', nt', o', t'⟩ => by
    change (decide (r = r') && tsTypeParamDefBeq tpq tpq' && optTsTypeDefBeq nt nt' &&
      decide (o = o') && optTsTypeDefBeq t t') = true ↔ _
    simp only [Bool.and_eq_true, decide_eq_true_eq, TsMappedTypeDef.mk.injEq,
      tsTypeParamDefBeq_eq tpq tpq', optTsTypeDefBeq_eq nt nt',
      optTsTypeDefBeq_eq t t', and_assoc]
termination_by structural a => a

theorem optTsMappedTypeDefBeq_eq : ∀ a b, optTsMappedTypeDefBeq a b = true ↔ a = b
  | none, none => ⟨fun _ => rfl, fun _ => rfl⟩
  | none, some _ => ⟨fun h => Bool.noConfusion h, fun h => Option.noConfusion h⟩
  | some _, none => ⟨fun h => Bool.noConfusion h, fun h => Option.noConfusion h⟩
  | some x, some y => (tsMappedTypeDefBeq_eq x y).trans ⟨congrArg some, Option.some.inj⟩
termination_by structural a => a

theorem literalMethodDefBeq_eq : ∀ a b : LiteralMethodDef, literalMethodDefBeq a b = true ↔ a = b
  | ⟨n, k, p, c, o, rt, tps⟩, ⟨n', k', p', c', o', rt', tps'⟩ => by
    change (decide (n = n') && decide (k = k') && decide (p = p') && decide (c = c') &&
      decide (o = o') && optTsTypeDefBeq rt rt' && listTsTypeParamDefBeq tps tps') = true ↔ _
    simp only [Bool.and_eq_true, decide_eq_true_eq, LiteralMethodDef.mk.injEq,
      optTsTypeDefBeq_eq rt rt', listTsTypeParamDefBeq_eq tps tps', and_assoc]
termination_by structural a => a

theorem listLiteralMethodDefBeq_eq : ∀ a b, listLiteralMethodDefBeq a b = true ↔ a = b
  | [], [] => ⟨fun _ => rfl, fun _ => rfl⟩
  | [], _ :: _ => ⟨fun h => Bool.noConfusion h, fun h => List.noConfusion h⟩
  | _ :: _, [] => ⟨fun h => Bool.noConfusion h, fun h => List.noConfusion h⟩
  | x :: xs, y :: ys => by
    change (literalMethodDefBeq x y && listLiteralMethodDefBeq xs ys) = true ↔ _
    simp only [Bool.and_eq_true, literalMethodDefBeq_eq x y,
      listLiteralMethodDefBeq_eq xs ys, List.cons_eq_cons]
termination_by structural a => a

theorem literalPropertyDefBeq_eq : ∀ a b : LiteralPropertyDef, literalPropertyDefBeq a b = true ↔ a = b
  | ⟨n, p, r, c, o, t, tps⟩, ⟨n', p', r', c', o', t', tps'⟩ => by
    change (decide (n = n') && decide (p = p') && decide (r = r') && decide (c = c') &&
      decide (o = o') && optTsTypeDefBeq t t' && listTsTypeParamDefBeq tps tps') = true ↔ _
    simp only [Bool.and_eq_true, decide_eq_true_eq, LiteralPropertyDef.mk.injEq,
      optTsTypeDefBeq_eq t t', listTsTypeParamDefBeq_eq tps tps', and_assoc]
termination_by structural a => a

theorem listLiteralPropertyDefBeq_eq : ∀ a b, listLiteralPropertyDefBeq a b = true ↔ a = b
  | [], [] => ⟨fun _ => rfl, fun _ => rfl⟩
  | [], _ :: _ => ⟨fun h => Bool.noConfusion h, fun h => List.noConfusion h⟩
  | _ :: _, [] => ⟨fun h => Bool.noConfusion h, fun h => List.noConfusion h⟩
  | x :: xs, y :: ys => by
    change (literalPropertyDefBeq x y && listLiteralPropertyDefBeq xs ys) = true ↔ _
    simp only [Bool.and_eq_true, literalPropertyDefBeq_eq x y,
      listLiteralPropertyDefBeq_eq xs ys, List.cons_eq_cons]
termination_by structural a => a

theorem literalCallSignatureDefBeq_eq : ∀ a b : LiteralCallSignatureDef, literalCallSignatureDefBeq a b = true ↔ a = b
  | ⟨p, t, tps⟩, ⟨p', t', tps'⟩ => by
    change (decide (p = p') && optTsTypeDefBeq t t' && listTsTypeParamDefBeq tps tps') = true ↔ _
    simp only [Bool.and_eq_true, decide_eq_true_eq, LiteralCallSignatureDef.mk.injEq,
      optTsTypeDefBeq_eq t t', listTsTypeParamDefBeq_eq tps tps', and_assoc]
termination_by structural a => a

theorem listLiteralCallSignatureDefBeq_eq : ∀ a b, listLiteralCallSignatureDefBeq a b = true ↔ a = b
  | [], [] => ⟨fun _ => rfl, fun _ => rfl⟩
  | [], _ :: _ => ⟨fun h => Bool.noConfusion h, fun h => List.noConfusion h⟩
  | _ :: _, [] => ⟨fun h => Bool.noConfusion h, fun h => List.noConfusion h⟩
  | x :: xs, y :: ys => by
    change (literalCallSignatureDefBeq x y && listLiteralCallSignatureDefBeq xs ys) = true ↔ _
    simp only [Bool.and_eq_true, literalCallSignatureDefBeq_eq x y,
      listLiteralCallSignatureDefBeq_eq xs ys, List.cons_eq_cons]
termination_by structural a => a

theorem literalIndexSignatureDefBeq_eq : ∀ a b : LiteralIndexSignatureDef, literalIndexSignatureDefBeq a b = true ↔ a = b
  | ⟨r, p, t⟩, ⟨r', p', t'⟩ => by
    change (decide (r = r') && decide (p = p') && optTsTypeDefBeq t t') = true ↔ _
    simp only [Bool.and_eq_true, decide_eq_true_eq, LiteralIndexSignatureDef.mk.injEq,
      optTsTypeDefBeq_eq t t', and_assoc]
termination_by structural a => a

theorem listLiteralIndexSignatureDefBeq_eq : ∀ a b, listLiteralIndexSignatureDefBeq a b = true ↔ a = b
  | [], [] => ⟨fun _ => rfl, fun _ => rfl⟩
  | [], _ :: _ => ⟨fun h => Bool.noConfusion h, fun h => List.noConfusion h⟩
  | _ :: _, [] => ⟨fun h => Bool.noConfusion h, fun h => List.noConfusion h⟩
  | x :: xs, y :: ys => by
    change (literalIndexSignatureDefBeq x y && listLiteralIndexSignatureDefBeq xs ys) = true ↔ _
    simp only [Bool.and_eq_true, literalIndexSignatureDefBeq_eq x y,
      listLiteralIndexSignatureDefBeq_eq xs ys, List.cons_eq_cons]
termination_by structural a => a

theorem tsTypeLiteralDefBeq_eq : ∀ a b : TsTypeLiteralDef, tsTypeLiteralDefBeq a b = true ↔ a = b
  | ⟨m, p, c, i⟩, ⟨m', p', c', i'⟩ => by
    change (listLiteralMethodDefBeq m m' && listLiteralPropertyDefBeq p p' &&
      listLiteralCallSignatureDefBeq c c' && listLiteralIndexSignatureDefBeq i i') = true ↔ _
    simp only [Bool.and_eq_true, TsTypeLiteralDef.mk.injEq,
      listLiteralMethodDefBeq_eq m m', listLiteralPropertyDefBeq_eq p p',
      listLiteralCallSignatureDefBeq_eq c c', listLiteralIndexSignatureDefBeq_eq i i',
      and_assoc]
termination_by structural a => a

theorem optTsTypeLiteralDefBeq_eq : ∀ a b, optTsTypeLiteralDefBeq a b = true ↔ a = b
  | none, none => ⟨fun _ => rfl, fun _ => rfl⟩
  | none, some _ => ⟨fun h => Bool.noConfusion h, fun h => Option.noConfusion h⟩
  | some _, none => ⟨fun h => Bool.noConfusion h, fun h => Option.noConfusion h⟩
  | some x, some y => (tsTypeLiteralDefBeq_eq x y).trans ⟨congrArg some, Option.some.inj⟩
termination_by structural a => a

theorem tsTypePredicateDefBeq_eq : ∀ a b : TsTypePredicateDef, tsTypePredicateDefBeq a b = true ↔ a = b
  | ⟨aa, p, t⟩, ⟨aa', p', t'⟩ => by
    change (decide (aa = aa') && decide (p = p') && optTsTypeDefBeq t t') = true ↔ _
    simp only [Bool.and_eq_true, decide_eq_true_eq, TsTypePredicateDef.mk.injEq,
      optTsTypeDefBeq_eq t t', and_assoc]
termination_by structural a => a

theorem optTsTypePredicateDefBeq_eq : ∀ a b, optTsTypePredicateDefBeq a b = true ↔ a = b
  | none, none => ⟨fun _ => rfl, fun _ => rfl⟩
  | none, some _ => ⟨fun h => Bool.noConfusion h, fun h => Option.noConfusion h⟩
  | some _, none => ⟨fun h => Bool.noConfusion h, fun h => Option.noConfusion h⟩
  | some x, some y => (tsTypePredicateDefBeq_eq x y).trans ⟨congrArg some, Option.some.inj⟩
termination_by structural a => a
end

/-- The list well-formedness predicate is membership-wise well-formedness. -/
theorem WfListTsTypeDef_iff : ∀ l : List TsTypeDef, WfListTsTypeDef l ↔ ∀ x ∈ l, WfTsTypeDef x
  | [] => by constructor
             · intro _ x hx
               exact absurd hx (List.not_mem_nil x)
             · intro _
               trivial
  | x :: xs => by
    constructor
    · intro h y hy
      rcases List.mem_cons.mp hy with h1 | h2
      · exact h1 ▸ h.1
      · exact (WfListTsTypeDef_iff xs).mp h.2 y h2
    · intro h
      exact ⟨h x (List.mem_cons_self x xs), (WfListTsTypeDef_iff xs).mpr
        fun y hy => h y (List.mem_cons_of_mem x hy)⟩

/-- List well-formedness splits over append. -/
theorem WfListTsTypeDef_append (a b : List TsTypeDef)
    (ha : WfListTsTypeDef a) (hb : WfListTsTypeDef b) : WfListTsTypeDef (a ++ b) := by
  rw [WfListTsTypeDef_iff] at *
  intro x hx
  rcases List.mem_append.mp hx with h | h
  · exact ha x h
  · exact hb x h

/-- List well-formedness is stable under permutation. -/
theorem WfListTsTypeDef_of_perm {l l' : List TsTypeDef} (h : l.Perm l')
    (hw : WfListTsTypeDef l) : WfListTsTypeDef l' := by
  rw [WfListTsTypeDef_iff] at *
  intro x hx
  exact hw x (h.symm.subset hx)

/-- Every quasi segment carries a well-formed string-literal node. -/
theorem wf_tplQuasiSegments : ∀ qs : List swc.TplElement,
    WfListTsTypeDef ((tplQuasiSegments qs).map fun s => s.2.1)
  | [] => trivial
  | _ :: qs => ⟨⟨⟨rfl, rfl⟩, trivial, trivial, trivial, trivial, trivial, trivial, trivial, trivial, trivial, trivial, trivial, trivial, trivial, trivial, trivial, trivial, trivial, trivial⟩, wf_tplQuasiSegments qs⟩

mutual

/-- Every node of a converted type tree satisfies the payload invariant. -/
theorem wf_from_ts_type : ∀ t : swc.TsType, WfTsTypeDef (TsTypeDef.from_ts_type t)
  | .TsKeywordType _ _ => ⟨⟨rfl, rfl⟩, trivial, trivial, trivial, trivial, trivial, trivial, trivial, trivial, trivial, trivial, trivial, trivial, trivial, trivial, trivial, trivial, trivial, trivial⟩
  | .TsThisType _ => ⟨⟨rfl, rfl⟩, trivial, trivial, trivial, trivial, trivial, trivial, trivial, trivial, trivial, trivial, trivial, trivial, trivial, trivial, trivial, trivial, trivial, trivial⟩
  | .TsFnOrConstructorType f => wf_from_ts_fn_or_constructor_type f
  | .TsTypeRef _ _ type_params => ⟨⟨rfl, rfl⟩, trivial, wf_convOptListTsType type_params, trivial, trivial, trivial, trivial, trivial, trivial, trivial, trivial, trivial, trivial, trivial, trivial, trivial, trivial, trivial, trivial⟩
  | .TsTypeQuery _ _ => ⟨⟨rfl, rfl⟩, trivial, trivial, trivial, trivial, trivial, trivial, trivial, trivial, trivial, trivial, trivial, trivial, trivial, trivial, trivial, trivial, trivial, trivial⟩
  | .TsTypeLit _ members => ⟨⟨rfl, rfl⟩, trivial, trivial, trivial, trivial, trivial, trivial, trivial, trivial, trivial, trivial, trivial, trivial, trivial, trivial, trivial, ⟨wf_extractLitMethods members, wf_extractLitProperties members, wf_extractLitCallSigs members, wf_extractLitIndexSigs members⟩, trivial, trivial⟩
  | .TsArrayType _ elem_type => ⟨⟨rfl, rfl⟩, trivial, trivial, trivial, trivial, wf_from_ts_type elem_type, trivial, trivial, trivial, trivial, trivial, trivial, trivial, trivial, trivial, trivial, trivial, trivial, trivial⟩
  | .TsTupleType _ elem_types => ⟨⟨rfl, rfl⟩, trivial, trivial, trivial, trivial, trivial, wf_convTupleElems elem_types, trivial, trivial, trivial, trivial, trivial, trivial, trivial, trivial, trivial, trivial, trivial, trivial⟩
  | .TsOptionalType _ type_ann => ⟨⟨rfl, rfl⟩, trivial, trivial, trivial, trivial, trivial, trivial, trivial, trivial, trivial, wf_from_ts_type type_ann, trivial, trivial, trivial, trivial, trivial, trivial, trivial, trivial⟩
  | .TsRestType _ type_ann => ⟨⟨rfl, rfl⟩, trivial, trivial, trivial, trivial, trivial, trivial, trivial, trivial, wf_from_ts_type type_ann, trivial, trivial, trivial, trivial, trivial, trivial, trivial, trivial, trivial⟩
  | .TsUnionOrIntersectionType u => wf_from_ts_union_or_intersection_type u
  | .TsConditionalType _ c e t f => ⟨⟨rfl, rfl⟩, trivial, trivial, trivial, trivial, trivial, trivial, trivial, trivial, trivial, trivial, trivial, ⟨wf_from_ts_type c, wf_from_ts_type e, wf_from_ts_type t, wf_from_ts_type f⟩, trivial, trivial, trivial, trivial, trivial, trivial⟩
  | .TsInferType _ type_param => ⟨⟨rfl, rfl⟩, trivial, trivial, trivial, trivial, trivial, trivial, trivial, trivial, trivial, trivial, trivial, trivial, wf_from_ts_type_param type_param, trivial, trivial, trivial, trivial, trivial⟩
  | .TsParenthesizedType _ type_ann => ⟨⟨rfl, rfl⟩, trivial, trivial, trivial, trivial, trivial, trivial, trivial, wf_from_ts_type type_ann, trivial, trivial, trivial, trivial, trivial, trivial, trivial, trivial, trivial, trivial⟩
  | .TsTypeOperator _ _ type_ann => ⟨⟨rfl, rfl⟩, trivial, trivial, trivial, trivial, trivial, trivial, wf_from_ts_type type_ann, trivial, trivial, trivial, trivial, trivial, trivial, trivial, trivial, trivial, trivial, trivial⟩
  | .TsIndexedAccessType _ _ o i => ⟨⟨rfl, rfl⟩, trivial, trivial, trivial, trivial, trivial, trivial, trivial, trivial, trivial, trivial, trivial, trivial, trivial, ⟨wf_from_ts_type o, wf_from_ts_type i⟩, trivial, trivial, trivial, trivial⟩
  | .TsMappedType _ _ tp nt _ tann => ⟨⟨rfl, rfl⟩, trivial, trivial, trivial, trivial, trivial, trivial, trivial, trivial, trivial, trivial, trivial, trivial, trivial, trivial, ⟨wf_from_ts_type_param tp, wf_convOptTsType nt, wf_convOptTsType tann⟩, trivial, trivial, trivial⟩
  | .TsLitType _ lit => wf_from_ts_lit lit
  | .TsTypePredicate _ _ _ tann => ⟨⟨rfl, rfl⟩, trivial, trivial, trivial, trivial, trivial, trivial, trivial, trivial, trivial, trivial, trivial, trivial, trivial, trivial, trivial, trivial, wf_convOptTsTypeAnn tann, trivial⟩
  | .TsImportType _ _ _ targs => ⟨⟨rfl, rfl⟩, trivial, trivial, trivial, trivial, trivial, trivial, trivial, trivial, trivial, trivial, trivial, trivial, trivial, trivial, trivial, trivial, trivial, wf_convOptListTsType targs⟩
termination_by structural t => t

/-- The duplicated annotation dispatch also yields well-formed trees. -/
theorem wf_ts_type_ann_to_def : ∀ t : swc.TsType, WfTsTypeDef (ts_type_ann_to_def t)
  | .TsKeywordType _ _ => ⟨⟨rfl, rfl⟩, trivial, trivial, trivial, trivial, trivial, trivial, trivial, trivial, trivial, trivial, trivial, trivial, trivial, trivial, trivial, trivial, trivial, trivial⟩
  | .TsThisType _ => ⟨⟨rfl, rfl⟩, trivial, trivial, trivial, trivial, trivial, trivial, trivial, trivial, trivial, trivial, trivial, trivial, trivial, trivial, trivial, trivial, trivial, trivial⟩
  | .TsFnOrConstructorType f => wf_from_ts_fn_or_constructor_type f
  | .TsTypeRef _ _ type_params => ⟨⟨rfl, rfl⟩, trivial, wf_convOptListTsType type_params, trivial, trivial, trivial, trivial, trivial, trivial, trivial, trivial, trivial, trivial, trivial, trivial, trivial, trivial, trivial, trivial⟩
  | .TsTypeQuery _ _ => ⟨⟨rfl, rfl⟩, trivial, trivial, trivial, trivial, trivial, trivial, trivial, trivial, trivial, trivial, trivial, trivial, trivial, trivial, trivial, trivial, trivial, trivial⟩
  | .TsTypeLit _ members => ⟨⟨rfl, rfl⟩, trivial, trivial, trivial, trivial, trivial, trivial, trivial, trivial, trivial, trivial, trivial, trivial, trivial, trivial, trivial, ⟨wf_extractLitMethods members, wf_extractLitProperties members, wf_extractLitCallSigs members, wf_extractLitIndexSigs members⟩, trivial, trivial⟩
  | .TsArrayType _ elem_type => ⟨⟨rfl, rfl⟩, trivial, trivial, trivial, trivial, wf_from_ts_type elem_type, trivial, trivial, trivial, trivial, trivial, trivial, trivial, trivial, trivial, trivial, trivial, trivial, trivial⟩
  | .TsTupleType _ elem_types => ⟨⟨rfl, rfl⟩, trivial, trivial, trivial, trivial, trivial, wf_convTupleElems elem_types, trivial, trivial, trivial, trivial, trivial, trivial, trivial, trivial, trivial, trivial, trivial, trivial⟩
  | .TsOptionalType _ type_ann => ⟨⟨rfl, rfl⟩, trivial, trivial, trivial, trivial, trivial, trivial, trivial, trivial, trivial, wf_from_ts_type type_ann, trivial, trivial, trivial, trivial, trivial, trivial, trivial, trivial⟩
  | .TsRestType _ type_ann => ⟨⟨rfl, rfl⟩, trivial, trivial, trivial, trivial, trivial, trivial, trivial, trivial, wf_from_ts_type type_ann, trivial, trivial, trivial, trivial, trivial, trivial, trivial, trivial, trivial⟩
  | .TsUnionOrIntersectionType u => wf_from_ts_union_or_intersection_type u
  | .TsConditionalType _ c e t f => ⟨⟨rfl, rfl⟩, trivial, trivial, trivial, trivial, trivial, trivial, trivial, trivial, trivial, trivial, trivial, ⟨wf_from_ts_type c, wf_from_ts_type e, wf_from_ts_type t, wf_from_ts_type f⟩, trivial, trivial, trivial, trivial, trivial, trivial⟩
  | .TsInferType _ type_param => ⟨⟨rfl, rfl⟩, trivial, trivial, trivial, trivial, trivial, trivial, trivial, trivial, trivial, trivial, trivial, trivial, wf_from_ts_type_param type_param, trivial, trivial, trivial, trivial, trivial⟩
  | .TsParenthesizedType _ type_ann => ⟨⟨rfl, rfl⟩, trivial, trivial, trivial, trivial, trivial, trivial, trivial, wf_from_ts_type type_ann, trivial, trivial, trivial, trivial, trivial, trivial, trivial, trivial, trivial, trivial⟩
  | .TsTypeOperator _ _ type_ann => ⟨⟨rfl, rfl⟩, trivial, trivial, trivial, trivial, trivial, trivial, wf_from_ts_type type_ann, trivial, trivial, trivial, trivial, trivial, trivial, trivial, trivial, trivial, trivial, trivial⟩
  | .TsIndexedAccessType _ _ o i => ⟨⟨rfl, rfl⟩, trivial, trivial, trivial, trivial, trivial, trivial, trivial, trivial, trivial, trivial, trivial, trivial, trivial, ⟨wf_from_ts_type o, wf_from_ts_type i⟩, trivial, trivial, trivial, trivial⟩
  | .TsMappedType _ _ tp nt _ tann => ⟨⟨rfl, rfl⟩, trivial, trivial, trivial, trivial, trivial, trivial, trivial, trivial, trivial, trivial, trivial, trivial, trivial, trivial, ⟨wf_from_ts_type_param tp, wf_convOptTsType nt, wf_convOptTsType tann⟩, trivial, trivial, trivial⟩
  | .TsLitType _ lit => wf_from_ts_lit lit
  | .TsTypePredicate _ _ _ tann => ⟨⟨rfl, rfl⟩, trivial, trivial, trivial, trivial, trivial, trivial, trivial, trivial, trivial, trivial, trivial, trivial, trivial, trivial, trivial, trivial, wf_convOptTsTypeAnn tann, trivial⟩
  | .TsImportType _ _ _ targs => ⟨⟨rfl, rfl⟩, trivial, trivial, trivial, trivial, trivial, trivial, trivial, trivial, trivial, trivial, trivial, trivial, trivial, trivial, trivial, trivial, trivial, wf_convOptListTsType targs⟩
termination_by structural t => t

/-- Converted function-or-constructor forms are well-formed. -/
theorem wf_from_ts_fn_or_constructor_type : ∀ f, WfTsTypeDef (from_ts_fn_or_constructor_type f)
  | .TsFnType _ _ tps tann => ⟨⟨rfl, rfl⟩, trivial, trivial, trivial, trivial, trivial, trivial, trivial, trivial, trivial, trivial, ⟨wf_ts_type_ann_to_def tann, wf_maybe_type_param_decl tps⟩, trivial, trivial, trivial, trivial, trivial, trivial, trivial⟩
  | .TsConstructorType _ _ tps tann => ⟨⟨rfl, rfl⟩, trivial, trivial, trivial, trivial, trivial, trivial, trivial, trivial, trivial, trivial, ⟨wf_ts_type_ann_to_def tann, wf_maybe_type_param_decl tps⟩, trivial, trivial, trivial, trivial, trivial, trivial, trivial⟩
termination_by structural t => t

/-- Converted unions and intersections are well-formed. -/
theorem wf_from_ts_union_or_intersection_type : ∀ u, WfTsTypeDef (from_ts_union_or_intersection_type u)
  | .TsUnionType _ types => ⟨⟨rfl, rfl⟩, trivial, trivial, wf_convListTsType types, trivial, trivial, trivial, trivial, trivial, trivial, trivial, trivial, trivial, trivial, trivial, trivial, trivial, trivial, trivial⟩
  | .TsIntersectionType _ types => ⟨⟨rfl, rfl⟩, trivial, trivial, trivial, wf_convListTsType types, trivial, trivial, trivial, trivial, trivial, trivial, trivial, trivial, trivial, trivial, trivial, trivial, trivial, trivial⟩
termination_by structural t => t

/-- Converted literal forms are well-formed, including merged templates. -/
theorem wf_from_ts_lit : ∀ l : swc.TsLit, WfTsTypeDef (from_ts_lit l)
  | .Number _ => ⟨⟨rfl, rfl⟩, trivial, trivial, trivial, trivial, trivial, trivial, trivial, trivial, trivial, trivial, trivial, trivial, trivial, trivial, trivial, trivial, trivial, trivial⟩
  | .Str _ => ⟨⟨rfl, rfl⟩, trivial, trivial, trivial, trivial, trivial, trivial, trivial, trivial, trivial, trivial, trivial, trivial, trivial, trivial, trivial, trivial, trivial, trivial⟩
  | .Bool _ => ⟨⟨rfl, rfl⟩, trivial, trivial, trivial, trivial, trivial, trivial, trivial, trivial, trivial, trivial, trivial, trivial, trivial, trivial, trivial, trivial, trivial, trivial⟩
  | .BigInt _ => ⟨⟨rfl, rfl⟩, trivial, trivial, trivial, trivial, trivial, trivial, trivial, trivial, trivial, trivial, trivial, trivial, trivial, trivial, trivial, trivial, trivial, trivial⟩
  | .Tpl _ types quasis => by
    refine ⟨⟨rfl, rfl⟩, ?_, trivial, trivial, trivial, trivial, trivial, trivial, trivial, trivial, trivial, trivial, trivial, trivial, trivial, trivial, trivial, trivial, trivial⟩
    have hcomb : WfListTsTypeDef
        ((tplTypeSegments types ++ tplQuasiSegments quasis).map fun s => s.2.1) := by
      rw [List.map_append]
      exact WfListTsTypeDef_append _ _ (wf_tplTypeSegments types) (wf_tplQuasiSegments quasis)
    exact WfListTsTypeDef_of_perm
      ((List.perm_insertionSort tplSegLE _).map fun s => s.2.1).symm hcomb
termination_by structural t => t

/-- Every interpolated-type segment carries a well-formed node. -/
theorem wf_tplTypeSegments : ∀ ts : List swc.TsType,
    WfListTsTypeDef ((tplTypeSegments ts).map fun s => s.2.1)
  | [] => trivial
  | t :: ts => ⟨wf_from_ts_type t, wf_tplTypeSegments ts⟩
termination_by structural t => t

/-- Converted type lists are element-wise well-formed. -/
theorem wf_convListTsType : ∀ l : List swc.TsType, WfListTsTypeDef (convListTsType l)
  | [] => trivial
  | t :: ts => ⟨wf_from_ts_type t, wf_convListTsType ts⟩
termination_by structural t => t

/-- Converted optional types are well-formed. -/
theorem wf_convOptTsType : ∀ o : Option swc.TsType, WfOptTsTypeDef (convOptTsType o)
  | none => trivial
  | some t => wf_from_ts_type t
termination_by structural t => t

/-- Converted optional annotations are well-formed. -/
theorem wf_convOptTsTypeAnn : ∀ o : Option swc.TsType, WfOptTsTypeDef (convOptTsTypeAnn o)
  | none => trivial
  | some t => wf_ts_type_ann_to_def t
termination_by structural t => t

/-- Converted optional argument lists are well-formed. -/
theorem wf_convOptListTsType : ∀ o : Option (List swc.TsType), WfOptListTsTypeDef (convOptListTsType o)
  | none => trivial
  | some l => wf_convListTsType l
termination_by structural t => t

/-- Converted tuple element lists are well-formed. -/
theorem wf_convTupleElems : ∀ l : List swc.TsTupleElement, WfListTsTypeDef (convTupleElems l)
  | [] => trivial
  | ⟨ty⟩ :: rest => ⟨wf_from_ts_type ty, wf_convTupleElems rest⟩
termination_by structural t => t

/-- Extracted method entries are well-formed through their types. -/
theorem wf_extractLitMethods : ∀ ms : List swc.TsTypeElement,
    WfListLiteralMethodDef (extractLitMethods ms)
  | [] => trivial
  | .TsMethodSignature _ _ _ _ tann tps :: rest =>
    ⟨⟨wf_convOptTsType tann, wf_maybe_type_param_decl tps⟩, wf_extractLitMethods rest⟩
  | .TsGetterSignature _ _ _ tann :: rest =>
    ⟨⟨wf_convOptTsType tann, trivial⟩, wf_extractLitMethods rest⟩
  | .TsSetterSignature _ _ _ _ :: rest =>
    ⟨⟨trivial, trivial⟩, wf_extractLitMethods rest⟩
  | .TsConstructSignatureDecl _ tann tps :: rest =>
    ⟨⟨wf_convOptTsType tann, wf_maybe_type_param_decl tps⟩, wf_extractLitMethods rest⟩
  | .TsPropertySignature _ _ _ _ _ _ _ :: rest => wf_extractLitMethods rest
  | .TsCallSignatureDecl _ _ _ :: rest => wf_extractLitMethods rest
  | .TsIndexSignature _ _ _ :: rest => wf_extractLitMethods rest
termination_by structural t => t

/-- Extracted property entries are well-formed through their types. -/
theorem wf_extractLitProperties : ∀ ms : List swc.TsTypeElement,
    WfListLiteralPropertyDef (extractLitProperties ms)
  | [] => trivial
  | .TsPropertySignature _ _ _ _ _ tann tps :: rest =>
    ⟨⟨wf_convOptTsType tann, wf_maybe_type_param_decl tps⟩, wf_extractLitProperties rest⟩
  | .TsMethodSignature _ _ _ _ _ _ :: rest => wf_extractLitProperties rest
  | .TsGetterSignature _ _ _ _ :: rest => wf_extractLitProperties rest
  | .TsSetterSignature _ _ _ _ :: rest => wf_extractLitProperties rest
  | .TsConstructSignatureDecl _ _ _ :: rest => wf_extractLitProperties rest
  | .TsCallSignatureDecl _ _ _ :: rest => wf_extractLitProperties rest
  | .TsIndexSignature _ _ _ :: rest => wf_extractLitProperties rest
termination_by structural t => t

/-- Extracted call-signature entries are well-formed through their types. -/
theorem wf_extractLitCallSigs : ∀ ms : List swc.TsTypeElement,
    WfListLiteralCallSignatureDef (extractLitCallSigs ms)
  | [] => trivial
  | .TsCallSignatureDecl _ tann tps :: rest =>
    ⟨⟨wf_convOptTsType tann, wf_maybe_type_param_decl tps⟩, wf_extractLitCallSigs rest⟩
  | .TsMethodSignature _ _ _ _ _ _ :: rest => wf_extractLitCallSigs rest
  | .TsGetterSignature _ _ _ _ :: rest => wf_extractLitCallSigs rest
  | .TsSetterSignature _ _ _ _ :: rest => wf_extractLitCallSigs rest
  | .TsPropertySignature _ _ _ _ _ _ _ :: rest => wf_extractLitCallSigs rest
  | .TsConstructSignatureDecl _ _ _ :: rest => wf_extractLitCallSigs rest
  | .TsIndexSignature _ _ _ :: rest => wf_extractLitCallSigs rest
termination_by structural t => t

/-- Extracted index-signature entries are well-formed through their types. -/
theorem wf_extractLitIndexSigs : ∀ ms : List swc.TsTypeElement,
    WfListLiteralIndexSignatureDef (extractLitIndexSigs ms)
  | [] => trivial
  | .TsIndexSignature _ _ tann :: rest =>
    ⟨wf_convOptTsType tann, wf_extractLitIndexSigs rest⟩
  | .TsMethodSignature _ _ _ _ _ _ :: rest => wf_extractLitIndexSigs rest
  | .TsGetterSignature _ _ _ _ :: rest => wf_extractLitIndexSigs rest
  | .TsSetterSignature _ _ _ _ :: rest => wf_extractLitIndexSigs rest
  | .TsPropertySignature _ _ _ _ _ _ _ :: rest => wf_extractLitIndexSigs rest
  | .TsCallSignatureDecl _ _ _ :: rest => wf_extractLitIndexSigs rest
  | .TsConstructSignatureDecl _ _ _ :: rest => wf_extractLitIndexSigs rest
termination_by structural t => t

/-- Converted generic-parameter declarations are well-formed. -/
theorem wf_maybe_type_param_decl : ∀ o : Option swc.TsTypeParamDecl,
    WfListTsTypeParamDef (maybe_type_param_decl_to_type_param_defs o)
  | none => trivial
  | some (swc.TsTypeParamDecl.mk params) => wf_convTypeParams params
termination_by structural t => t

/-- Converted generic-parameter lists are well-formed. -/
theorem wf_convTypeParams : ∀ l : List swc.TsTypeParam, WfListTsTypeParamDef (convTypeParams l)
  | [] => trivial
  | p :: rest => ⟨wf_from_ts_type_param p, wf_convTypeParams rest⟩
termination_by structural t => t

/-- A converted generic parameter is well-formed. -/
theorem wf_from_ts_type_param : ∀ p : swc.TsTypeParam, WfTsTypeParamDef (from_ts_type_param p)
  | swc.TsTypeParam.mk _ c d => ⟨wf_convOptTsType c, wf_convOptTsType d⟩
termination_by structural t => t

end

theorem tplTypeSegments_eq_map : ∀ ts : List swc.TsType, tplTypeSegments ts = ts.map tplTypeSeg
  | [] => rfl
  | t :: ts => congrArg (List.cons (tplTypeSeg t)) (tplTypeSegments_eq_map ts)

theorem tplQuasiSegments_eq_map (qs : List swc.TplElement) :
    tplQuasiSegments qs = qs.map tplQuasiSeg := rfl

theorem tplInterleave_keys : ∀ (qs : List swc.TplElement) (ts : List swc.TsType),
    (tplInterleaveSegs qs ts).map (fun s => s.1) = tplInterleaveSpans qs ts
  | [], ts => by
    show (ts.map tplTypeSeg).map (fun s => s.1) = ts.map get_span_from_type
    rw [List.map_map]
    exact List.map_congr_left fun t _ => rfl
  | q :: qs, [] => congrArg (List.cons q.span) (tplInterleave_keys qs [])
  | q :: qs, t :: ts =>
    congrArg (List.cons q.span)
      (congrArg (List.cons (get_span_from_type t)) (tplInterleave_keys qs ts))

theorem tpl_perm : ∀ (qs : List swc.TplElement) (ts : List swc.TsType),
    (tplTypeSegments ts ++ tplQuasiSegments qs).Perm (tplInterleaveSegs qs ts)
  | [], ts => by
    rw [tplTypeSegments_eq_map]
    show ((ts.map tplTypeSeg) ++ []).Perm (ts.map tplTypeSeg)
    rw [List.append_nil]
  | q :: qs, [] => (tpl_perm qs []).cons (tplQuasiSeg q)
  | q :: qs, t :: ts => by
    show (tplTypeSeg t :: (tplTypeSegments ts ++ tplQuasiSeg q :: tplQuasiSegments qs)).Perm
      (tplQuasiSeg q :: tplTypeSeg t :: tplInterleaveSegs qs ts)
    exact (List.perm_middle.cons (tplTypeSeg t)).trans
      ((List.Perm.swap (tplQuasiSeg q) (tplTypeSeg t) _).trans
        (((tpl_perm qs ts).cons (tplTypeSeg t)).cons (tplQuasiSeg q)))

theorem tplInterleave_sorted (qs : List swc.TplElement) (ts : List swc.TsType)
    (h : List.Chain' (· < ·) (tplInterleaveSpans qs ts)) :
    List.Pairwise (fun a b => a.1 < b.1) (tplInterleaveSegs qs ts) := by
  have hp : List.Pairwise (· < ·) ((tplInterleaveSegs qs ts).map fun s => s.1) := by
    rw [tplInterleave_keys]
    exact List.chain'_iff_pairwise.mp h
  exact List.pairwise_map.mp hp

theorem insertionSort_eq_of_sorted (l l' : List (Span × TsTypeDef × String))
    (hperm : l.Perm l') (hsorted : List.Pairwise (fun a b => a.1 < b.1) l') :
    List.insertionSort tplSegLE l = l' := by
  have hp2 : (List.insertionSort tplSegLE l).Perm l' :=
    (List.perm_insertionSort tplSegLE l).trans hperm
  have hs1le : List.Pairwise tplSegLE (List.insertionSort tplSegLE l) :=
    List.sorted_insertionSort tplSegLE l
  have hnodup' : (l'.map fun s => s.1).Nodup := by
    rw [List.Nodup, List.pairwise_map]
    exact hsorted.imp fun h => Nat.ne_of_lt h
  have hnodup : ((List.insertionSort tplSegLE l).map fun s => s.1).Nodup :=
    ((hp2.map fun s => s.1).nodup_iff).mpr hnodup'
  have hne : List.Pairwise (fun a b => (a.1 : Nat) ≠ b.1) (List.insertionSort tplSegLE l) := by
    rw [List.Nodup, List.pairwise_map] at hnodup
    exact hnodup
  have hs1 : List.Pairwise (fun a b => a.1 < b.1) (List.insertionSort tplSegLE l) :=
    (hs1le.and hne).imp fun hab => lt_of_le_of_ne hab.1 hab.2
  have hs1' : List.Sorted (fun a b => a.1 < b.1) (List.insertionSort tplSegLE l) := hs1
  have hsorted' : List.Sorted (fun a b => a.1 < b.1) l' := hsorted
  exact @List.eq_of_perm_of_sorted _ (fun a b => a.1 < b.1)
    ⟨fun a b h1 h2 => absurd h1 (Nat.lt_asymm h2)⟩ _ _ hp2 hs1' hsorted'

theorem joined_interleave : ∀ (qs : List swc.TplElement) (ts : List swc.TsType),
    concatStrs ((tplInterleaveSegs qs ts).map fun s => s.2.2) = tplExpected qs ts
  | [], ts => by
    show concatStrs ((ts.map tplTypeSeg).map fun s => s.2.2) = concatStrs (ts.map tplPlaceholder)
    rw [List.map_map]
    exact congrArg concatStrs (List.map_congr_left fun t _ => rfl)
  | q :: qs, [] => congrArg (fun s => q.raw ++ s) (joined_interleave qs [])
  | q :: qs, t :: ts => by
    show q.raw ++ ((tplTypeSeg t).2.2 ++ concatStrs ((tplInterleaveSegs qs ts).map fun s => s.2.2)) =
      q.raw ++ tplPlaceholder t ++ tplExpected qs ts
    rw [joined_interleave qs ts, String.append_assoc]
    rfl

theorem combined_keys (types : List swc.TsType) (quasis : List swc.TplElement) :
    (tplTypeSegments types ++ tplQuasiSegments quasis).map (fun s => s.1) =
      types.map get_span_from_type ++ quasis.map swc.TplElement.span := by
  rw [List.map_append, tplTypeSegments_eq_map, List.map_map, tplQuasiSegments_eq_map,
    List.map_map]
  exact congrArg₂ (· ++ ·) (List.map_congr_left fun t _ => rfl)
    (List.map_congr_left fun q _ => rfl)

theorem merged_sorted_le (types : List swc.TsType) (quasis : List swc.TplElement) :
    List.Pairwise tplSegLE (tplMergedSegments types quasis) :=
  List.sorted_insertionSort tplSegLE _

theorem merged_sorted_lt (types : List swc.TsType) (quasis : List swc.TplElement)
    (h : (types.map get_span_from_type ++ quasis.map swc.TplElement.span).Nodup) :
    List.Pairwise (fun a b => a.1 < b.1) (tplMergedSegments types quasis) := by
  have hperm : (tplMergedSegments types quasis).Perm
      (tplTypeSegments types ++ tplQuasiSegments quasis) :=
    List.perm_insertionSort tplSegLE _
  have hnodup : ((tplMergedSegments types quasis).map fun s => s.1).Nodup := by
    refine ((hperm.map fun s => s.1).nodup_iff).mpr ?_
    rw [combined_keys]
    exact h
  have hne : List.Pairwise (fun a b => (a.1 : Nat) ≠ b.1) (tplMergedSegments types quasis) := by
    rw [List.Nodup, List.pairwise_map] at hnodup
    exact hnodup
  exact ((merged_sorted_le types quasis).and hne).imp fun hab => lt_of_le_of_ne hab.1 hab.2

theorem arr_lit_fold_spec : ∀ (elems : List (Option swc.ExprOrSpread)) (c : Bool) (acc : List TsTypeDef),
    arr_lit_fold elems c acc =
      if (elems.filterMap id).any (fun e =>
          e.spread.isSome || (infer_ts_type_from_expr e.expr c).isNone) then
        none
      else
        some (((elems.filterMap id).filterMap fun e => infer_ts_type_from_expr e.expr c).foldl
          (fun a t => if a.contains t then a else a ++ [t]) acc)
  | [], _, _ => rfl
  | none :: rest, c, acc => arr_lit_fold_spec rest c acc
  | some (swc.ExprOrSpread.mk spread e) :: rest, c, acc => by
    simp only [arr_lit_fold]
    cases spread with
    | some sp =>
      simp [List.filterMap_cons, List.any_cons, swc.ExprOrSpread.spread]
    | none =>
      cases hinfer : infer_ts_type_from_expr e c with
      | none =>
        simp [List.filterMap_cons, List.any_cons, swc.ExprOrSpread.spread,
          swc.ExprOrSpread.expr, hinfer]
      | some t =>
        refine (arr_lit_fold_spec rest c (if acc.contains t then acc else acc ++ [t])).trans ?_
        simp [List.filterMap_cons, List.any_cons, swc.ExprOrSpread.spread,
          swc.ExprOrSpread.expr, hinfer]

theorem infer_arr_lit_eq_spec : ∀ (arr : swc.ArrayLit) (c : Bool),
    infer_ts_type_from_arr_lit arr c = inferArrLitSpec arr c
  | swc.ArrayLit.mk sp elems, c => by
    simp only [infer_ts_type_from_arr_lit, inferArrLitSpec]
    rw [arr_lit_fold_spec elems c []]
    cases h : (elems.filterMap id).any (fun e =>
        e.spread.isSome || (infer_ts_type_from_expr e.expr c).isNone) with
    | true => simp
    | false =>
      simp only [Bool.false_eq_true, if_false]
      cases hfold : ((elems.filterMap id).filterMap fun e =>
          infer_ts_type_from_expr e.expr c).foldl
          (fun a t => if a.contains t then a else a ++ [t]) [] with
      | nil => rfl
      | cons d tail =>
        cases tail with
        | nil => rfl
        | cons d2 ds => rfl

/-- `Vec::contains` (embedded via the structural equality test) decides exact
membership: the array-literal deduplication removes exactly the structural
duplicates. -/
theorem listContains_iff_mem (l : List TsTypeDef) (t : TsTypeDef) :
    l.contains t = true ↔ t ∈ l := by
  have hbeq : ∀ a b : TsTypeDef, (a == b) = tsTypeDefBeq a b := fun _ _ => rfl
  induction l with
  | nil => simp [List.contains]
  | cons x xs ih =>
    rw [List.contains_cons]
    simp only [Bool.or_eq_true, ih, List.mem_cons, hbeq, tsTypeDefBeq_eq]

/-- The fallback arm of the const-assertion inference is exactly the source's
recursive call `infer_ts_type_from_expr(expr, true)`. -/
theorem infer_const_assertion_eq (sp : Span) (e : swc.Expr)
    (h : ∀ a, e ≠ swc.Expr.Array a) :
    infer_ts_type_from_const_assertion (swc.TsConstAssertion.mk sp e) =
      infer_ts_type_from_expr e true := by
  cases e <;> first | rfl | exact absurd rfl (h _)

theorem extractLitMethods_summary : ∀ ms : List swc.TsTypeElement,
    (extractLitMethods ms).map methodSummary = ms.filterMap memberMethodSummary
  | [] => rfl
  | m :: rest => by
    cases m <;>
      simp [extractLitMethods, memberMethodSummary, methodSummary,
        List.filterMap_cons, List.length_map, extractLitMethods_summary rest]

theorem extractLitProperties_len : ∀ ms : List swc.TsTypeElement,
    (extractLitProperties ms).length = (ms.filter memberIsProperty).length
  | [] => rfl
  | m :: rest => by
    cases m <;>
      simp [extractLitProperties, memberIsProperty, List.filter_cons,
        extractLitProperties_len rest]

theorem extractLitCallSigs_len : ∀ ms : List swc.TsTypeElement,
    (extractLitCallSigs ms).length = (ms.filter memberIsCallSig).length
  | [] => rfl
  | m :: rest => by
    cases m <;>
      simp [extractLitCallSigs, memberIsCallSig, List.filter_cons,
        extractLitCallSigs_len rest]

theorem extractLitIndexSigs_len : ∀ ms : List swc.TsTypeElement,
    (extractLitIndexSigs ms).length = (ms.filter memberIsIndexSig).length
  | [] => rfl
  | m :: rest => by
    cases m <;>
      simp [extractLitIndexSigs, memberIsIndexSig, List.filter_cons,
        extractLitIndexSigs_len rest]

/-- Claim C1 (corrected), counterexample: the claim reads "under a const-like
binding `["a", "a"]` infers an array of the single string-literal type
`"a"`", but the expression-level array branch re-enters array inference with
the const flag hard-coded off, so under a const binding (flag true) the bare
literal `["a", "a"]` infers `string[]` (an array of the widened `string`
keyword), not an array of the literal type `"a"`. -/
theorem claim_C1_counterexample :
    infer_ts_type_from_expr (swc.Expr.Array (swc.ArrayLit.mk 0
      [some (swc.ExprOrSpread.mk none (swc.Expr.Lit (swc.Lit.Str (swc.Str.mk "a")))),
       some (swc.ExprOrSpread.mk none (swc.Expr.Lit (swc.Lit.Str (swc.Str.mk "a"))))])) true =
      some (TsTypeDef.mkArray "" (TsTypeDef.string_with_repr "string")) ∧
    infer_ts_type_from_expr (swc.Expr.Array (swc.ArrayLit.mk 0
      [some (swc.ExprOrSpread.mk none (swc.Expr.Lit (swc.Lit.Str (swc.Str.mk "a")))),
       some (swc.ExprOrSpread.mk none (swc.Expr.Lit (swc.Lit.Str (swc.Str.mk "a"))))])) true ≠
      some (TsTypeDef.mkArray "" (TsTypeDef.string_literal (swc.Str.mk "a"))) := by
  refine ⟨rfl, fun h => ?_⟩
  rw [show infer_ts_type_from_expr (swc.Expr.Array (swc.ArrayLit.mk 0
      [some (swc.ExprOrSpread.mk none (swc.Expr.Lit (swc.Lit.Str (swc.Str.mk "a")))),
       some (swc.ExprOrSpread.mk none (swc.Expr.Lit (swc.Lit.Str (swc.Str.mk "a"))))])) true =
      some (TsTypeDef.mkArray "" (TsTypeDef.string_with_repr "string")) from rfl] at h
  have hx := (tsTypeDefBeq_eq _ _).mpr (Option.some.inj h)
  rw [show tsTypeDefBeq (TsTypeDef.mkArray "" (TsTypeDef.string_with_repr "string"))
      (TsTypeDef.mkArray "" (TsTypeDef.string_literal (swc.Str.mk "a"))) = false from rfl] at hx
  exact Bool.noConfusion hx

/-- Claim C1 (amended): array-literal initializer inference infers each
element independently with the const-like flag off (the expression-level
branch hard-codes it); a spread or non-inferable element collapses the whole
array to `any[]`; otherwise the distinct element types (exact structural
duplicates removed, first-seen order) wrap as no inference, an array, or an
array of their union.  Under an `as const` assertion the elements keep the
flag on, so `["a", "a"] as const` infers an array of the literal type `"a"`
and `["a", 1] as const` an array of the two-member literal union, while a
bare `["a", "a"]` under a const binding infers `string[]`, and
`["a", f()]` with non-inferable `f()` infers `any[]`. -/
theorem claim_C1_array_literal_inference :
    (∀ (arr : swc.ArrayLit) (c : Bool),
      infer_ts_type_from_expr (swc.Expr.Array arr) c = infer_ts_type_from_arr_lit arr false) ∧
    (∀ (arr : swc.ArrayLit) (c : Bool),
      infer_ts_type_from_arr_lit arr c = inferArrLitSpec arr c) ∧
    infer_ts_type_from_expr (swc.Expr.TsConstAssertion (swc.TsConstAssertion.mk 9
      (swc.Expr.Array (swc.ArrayLit.mk 0
        [some (swc.ExprOrSpread.mk none (swc.Expr.Lit (swc.Lit.Str (swc.Str.mk "a")))),
         some (swc.ExprOrSpread.mk none (swc.Expr.Lit (swc.Lit.Str (swc.Str.mk "a"))))])))) false =
      some (TsTypeDef.mkArray "" (TsTypeDef.string_literal (swc.Str.mk "a"))) ∧
    infer_ts_type_from_expr (swc.Expr.TsConstAssertion (swc.TsConstAssertion.mk 9
      (swc.Expr.Array (swc.ArrayLit.mk 0
        [some (swc.ExprOrSpread.mk none (swc.Expr.Lit (swc.Lit.Str (swc.Str.mk "a")))),
         some (swc.ExprOrSpread.mk none (swc.Expr.Lit (swc.Lit.Num (swc.Number.mk 1))))])))) false =
      some (TsTypeDef.mkArray "" (TsTypeDef.mkUnion ""
        [TsTypeDef.string_literal (swc.Str.mk "a"), TsTypeDef.number_literal (swc.Number.mk 1)])) ∧
    infer_ts_type_from_expr (swc.Expr.Array (swc.ArrayLit.mk 0
      [some (swc.ExprOrSpread.mk none (swc.Expr.Lit (swc.Lit.Str (swc.Str.mk "a")))),
       some (swc.ExprOrSpread.mk none (swc.Expr.Call (swc.CallExpr.mk 5
         (swc.Callee.Expr (swc.Expr.Ident "f")))))])) true = some anyArrayTsTypeDef ∧
    infer_ts_type_from_expr (swc.Expr.Array (swc.ArrayLit.mk 0
      [some (swc.ExprOrSpread.mk none (swc.Expr.Lit (swc.Lit.Str (swc.Str.mk "a")))),
       some (swc.ExprOrSpread.mk none (swc.Expr.Lit (swc.Lit.Str (swc.Str.mk "a"))))])) true =
      some (TsTypeDef.mkArray "" (TsTypeDef.string_with_repr "string")) :=
  ⟨fun _ _ => rfl, infer_arr_lit_eq_spec, rfl, rfl, rfl, rfl⟩

/-- Claim C2: for a template-literal type built from quasis and interpolated
types, the merged segment sequence is ordered by source position (weakly
always, strictly under distinct positions), it is exactly what the template
node stores, and when quasis and interpolations alternate at increasing
positions, the node's display text equals joining the original quasis with a
placeholder per interpolation in source order. -/
theorem claim_C2_template_roundtrip (types : List swc.TsType) (quasis : List swc.TplElement) :
    List.Pairwise tplSegLE (tplMergedSegments types quasis) ∧
    (TsTypeDef.tpl_literal types quasis).literal =
      some (LiteralDef.mk LiteralDefKind.Template none none
        (some ((tplMergedSegments types quasis).map fun s => s.2.1)) none) ∧
    ((types.map get_span_from_type ++ quasis.map swc.TplElement.span).Nodup →
      List.Pairwise (fun a b => a.1 < b.1) (tplMergedSegments types quasis)) ∧
    (List.Chain' (· < ·) (tplInterleaveSpans quasis types) →
      (TsTypeDef.tpl_literal types quasis).repr = tplExpected quasis types) := by
  refine ⟨merged_sorted_le types quasis, rfl, merged_sorted_lt types quasis, ?_⟩
  intro hchain
  have heq : List.insertionSort tplSegLE (tplTypeSegments types ++ tplQuasiSegments quasis) =
      tplInterleaveSegs quasis types :=
    insertionSort_eq_of_sorted _ _ (tpl_perm quasis types)
      (tplInterleave_sorted quasis types hchain)
  show concatStrs ((List.insertionSort tplSegLE
      (tplTypeSegments types ++ tplQuasiSegments quasis)).map fun s => s.2.2) = _
  rw [heq]
  exact joined_interleave quasis types

/-- Claim C2, witness: the template `` `hello${string}world` `` (quasis at
offsets 0 and 2, interpolated keyword at offset 1) merges strictly sorted
and its display text round-trips. -/
theorem claim_C2_witness :
    List.Pairwise (fun a b => a.1 < b.1)
      (tplMergedSegments [swc.TsType.TsKeywordType 1 swc.TsKeywordTypeKind.TsStringKeyword]
        [swc.TplElement.mk 0 "hello", swc.TplElement.mk 2 "world"]) ∧
    (TsTypeDef.tpl_literal [swc.TsType.TsKeywordType 1 swc.TsKeywordTypeKind.TsStringKeyword]
      [swc.TplElement.mk 0 "hello", swc.TplElement.mk 2 "world"]).repr =
      "hello$\x7bstring\x7dworld" := by
  refine ⟨(claim_C2_template_roundtrip _ _).2.2.1 (by decide), ?_⟩
  rw [(claim_C2_template_roundtrip
    [swc.TsType.TsKeywordType 1 swc.TsKeywordTypeKind.TsStringKeyword]
    [swc.TplElement.mk 0 "hello", swc.TplElement.mk 2 "world"]).2.2.2 (by
      show List.Chain' (· < ·) [0, 1, 2]
      simp [List.chain'_cons])]
  rfl

/-- Claim C3: the structural-type-literal conversion classifies every member
into exactly one category: methods, getters (tagged `Getter`, zero
parameters), setters (tagged `Setter`, exactly one parameter) and construct
signatures (named `new`) populate the method sequence, while properties,
call signatures and index signatures populate their own sequences; in
particular one getter, one setter and one index signature decompose into
exactly two method entries (kinds Getter and Setter), one index-signature
entry and no properties. -/
theorem claim_C3_structural_decomposition :
    (∀ (sp : Span) (members : List swc.TsTypeElement),
      TsTypeDef.from_ts_type (swc.TsType.TsTypeLit sp members) =
        TsTypeDef.mkTypeLiteral "" (from_ts_type_lit_members members)) ∧
    (∀ members : List swc.TsTypeElement,
      (from_ts_type_lit_members members).methods.map methodSummary =
        members.filterMap memberMethodSummary ∧
      (from_ts_type_lit_members members).properties.length =
        (members.filter memberIsProperty).length ∧
      (from_ts_type_lit_members members).call_signatures.length =
        (members.filter memberIsCallSig).length ∧
      (from_ts_type_lit_members members).index_signatures.length =
        (members.filter memberIsIndexSig).length) ∧
    from_ts_type_lit_members
      [swc.TsTypeElement.TsGetterSignature (swc.Expr.Ident "x") false false none,
       swc.TsTypeElement.TsSetterSignature (swc.Expr.Ident "x") false false (swc.TsFnParam.mk "v"),
       swc.TsTypeElement.TsIndexSignature false [swc.TsFnParam.mk "key"] none] =
      TsTypeLiteralDef.mk
        [LiteralMethodDef.mk "x" swc.MethodKind.Getter [] false false none [],
         LiteralMethodDef.mk "x" swc.MethodKind.Setter [ParamDef.mk "v"] false false none []]
        [] []
        [LiteralIndexSignatureDef.mk false [ParamDef.mk "key"] none] :=
  ⟨fun _ _ => rfl,
   fun members =>
     ⟨extractLitMethods_summary members, extractLitProperties_len members,
      extractLitCallSigs_len members, extractLitIndexSigs_len members⟩,
   rfl⟩

/-- Claim C4: the renderer parenthesizes an array node's element before the
trailing `[]` exactly when the element is a union or intersection node; an
array of the union `A | B` renders as `(A | B)[]` and an array of the plain
reference `A` as `A[]`. -/
theorem claim_C4_array_union_precedence :
    (∀ (d a : TsTypeDef), d.kind = some TsTypeDefKind.Array → d.array = some a →
      tsTypeDefDisplay d =
        if a.kind = some TsTypeDefKind.Union ∨ a.kind = some TsTypeDefKind.Intersection
        then "(" ++ tsTypeDefDisplay a ++ ")[]"
        else tsTypeDefDisplay a ++ "[]") ∧
    tsTypeDefDisplay (TsTypeDef.mkArray "" (TsTypeDef.mkUnion ""
      [TsTypeDef.mkTypeRef "A" (TsTypeRefDef.mk none "A"),
       TsTypeDef.mkTypeRef "B" (TsTypeRefDef.mk none "B")])) = "(A | B)[]" ∧
    tsTypeDefDisplay (TsTypeDef.mkArray ""
      (TsTypeDef.mkTypeRef "A" (TsTypeRefDef.mk none "A"))) = "A[]" := by
  refine ⟨?_, rfl, rfl⟩
  intro d a h1 h2
  obtain ⟨r, k, kw, li, tr, un, it, ar, tu, tow, pa, re, op, tq, th, fc, co, inf, ia, mt, tl, tp, im⟩ := d
  simp only [TsTypeDef.kind] at h1
  simp only [TsTypeDef.array] at h2
  subst h1
  subst h2
  rfl

/-- Claim C4, witness: applied to the array-of-intersection node, the
parenthesized rendering follows. -/
theorem claim_C4_witness :
    tsTypeDefDisplay (TsTypeDef.mkArray "" (TsTypeDef.mkIntersection ""
      [TsTypeDef.keywordDef "number", TsTypeDef.keywordDef "string"])) =
      "(number & string)[]" := by
  have h := claim_C4_array_union_precedence.1
    (TsTypeDef.mkArray "" (TsTypeDef.mkIntersection ""
      [TsTypeDef.keywordDef "number", TsTypeDef.keywordDef "string"]))
    (TsTypeDef.mkIntersection ""
      [TsTypeDef.keywordDef "number", TsTypeDef.keywordDef "string"]) rfl rfl
  rw [h]
  rfl

/-- Claim C5: inference on an arrow or function expression always produces a
function-or-constructor node whose return type is the explicit annotation
when present and the `unknown` keyword otherwise; the body (quantified on
the left, absent on the right) is never inspected. -/
theorem claim_C5_fn_arrow_inference :
    (∀ (sp : Span) (params : List swc.Pat) (body : Nat) (rt : Option swc.TsType)
        (tps : Option swc.TsTypeParamDecl) (c : Bool),
      infer_ts_type_from_expr (swc.Expr.Arrow (swc.ArrowExpr.mk sp params body rt tps)) c =
        some (TsTypeDef.mkFnOrConstructor ""
          (TsFnOrConstructorDef.mk false
            (match rt with
             | some t => ts_type_ann_to_def t
             | none => TsTypeDef.keywordDef "unknown")
            (params.map pat_to_param_def)
            (maybe_type_param_decl_to_type_param_defs tps)))) ∧
    (∀ (ident : Option String) (params : List swc.Param) (body : Nat)
        (rt : Option swc.TsType) (tps : Option swc.TsTypeParamDecl) (c : Bool),
      infer_ts_type_from_expr
          (swc.Expr.Fn (swc.FnExpr.mk ident (swc.Function.mk params body rt tps))) c =
        some (TsTypeDef.mkFnOrConstructor ""
          (TsFnOrConstructorDef.mk false
            (match rt with
             | some t => ts_type_ann_to_def t
             | none => TsTypeDef.keywordDef "unknown")
            (params.map fun p => pat_to_param_def p.pat)
            (maybe_type_param_decl_to_type_param_defs tps)))) ∧
    (∀ (r : String) (p : TsFnOrConstructorDef),
      (TsTypeDef.mkFnOrConstructor r p).kind = some TsTypeDefKind.FnOrConstructor ∧
      (TsTypeDef.mkFnOrConstructor r p).fn_or_constructor = some p) :=
  ⟨fun _ _ _ rt _ _ => by cases rt <;> rfl,
   fun _ _ _ rt _ _ => by cases rt <;> rfl,
   fun _ _ => ⟨rfl, rfl⟩⟩

/-- Claim C6: every node of every canonical tree produced from a syntactic
type expression has exactly one variant-specific payload populated, matching
its kind tag (the hereditary well-formedness predicate). -/
theorem claim_C6_payload_invariant :
    ∀ t : swc.TsType, WfTsTypeDef (TsTypeDef.from_ts_type t) :=
  wf_from_ts_type

/-- Claim C7: initializer inference is a total function into an optional
result; every expression shape outside the supported catalog yields the
normal value "no inference" (never an error or abort, which the embedding's
totality reflects). -/
theorem claim_C7_unsupported_shapes :
    ∀ (e : swc.Expr) (c : Bool), supportedShape e = false →
      infer_ts_type_from_expr e c = none := by
  intro e c h
  cases e <;> first | rfl | exact Bool.noConfusion h

/-- Claim C7, witness: a bare identifier initializer is outside the catalog
and infers nothing. -/
theorem claim_C7_witness :
    supportedShape (swc.Expr.Ident "x") = false ∧
    infer_ts_type_from_expr (swc.Expr.Ident "x") true = none :=
  ⟨rfl, claim_C7_unsupported_shapes (swc.Expr.Ident "x") true rfl⟩

/-- Claim C8: conversion, inference and rendering are deterministic; in this
pure-functional embedding two runs on the same input are definitionally the
same value, so structural equality of repeated results holds by
reflexivity. -/
theorem claim_C8_determinism :
    ∀ (t : swc.TsType) (e : swc.Expr) (c : Bool),
      TsTypeDef.from_ts_type t = TsTypeDef.from_ts_type t ∧
      infer_ts_type_from_expr e c = infer_ts_type_from_expr e c ∧
      tsTypeDefDisplay (TsTypeDef.from_ts_type t) = tsTypeDefDisplay (TsTypeDef.from_ts_type t) :=
  fun _ _ _ => ⟨rfl, rfl, rfl⟩

/-- Claim C9: a variable declarator with no initializer yields no inference,
regardless of the const-like flag. -/
theorem claim_C9_no_initializer :
    ∀ (name : swc.Pat) (definite : Bool) (c : Bool),
      infer_simple_ts_type_from_var_decl (swc.VarDeclarator.mk name none definite) c = none :=
  fun _ _ _ => rfl

/-- Claim C10: the built-in constructor-call inference table is exactly:
callee identifiers Symbol, Number, String, BigInt give the matching
lowercase keyword type with the callee name as repr; Date gives the
`string` keyword; RegExp gives a type reference named RegExp; every other
callee shape or name gives no inference (stated as equality with the
spec-side table, plus the seven concrete rows). -/
theorem claim_C10_call_table :
    (∀ call : swc.CallExpr, infer_ts_type_from_call_expr call = callTableSpec call) ∧
    (∀ sp : Span,
      infer_ts_type_from_call_expr
          (swc.CallExpr.mk sp (swc.Callee.Expr (swc.Expr.Ident "Symbol"))) =
        some (TsTypeDef.keyword_with_repr "symbol" "Symbol") ∧
      infer_ts_type_from_call_expr
          (swc.CallExpr.mk sp (swc.Callee.Expr (swc.Expr.Ident "Number"))) =
        some (TsTypeDef.keyword_with_repr "number" "Number") ∧
      infer_ts_type_from_call_expr
          (swc.CallExpr.mk sp (swc.Callee.Expr (swc.Expr.Ident "String"))) =
        some (TsTypeDef.keyword_with_repr "string" "String") ∧
      infer_ts_type_from_call_expr
          (swc.CallExpr.mk sp (swc.Callee.Expr (swc.Expr.Ident "BigInt"))) =
        some (TsTypeDef.keyword_with_repr "bigint" "BigInt") ∧
      infer_ts_type_from_call_expr
          (swc.CallExpr.mk sp (swc.Callee.Expr (swc.Expr.Ident "Date"))) =
        some (TsTypeDef.string_with_repr "Date") ∧
      infer_ts_type_from_call_expr
          (swc.CallExpr.mk sp (swc.Callee.Expr (swc.Expr.Ident "RegExp"))) =
        some (TsTypeDef.regexp "RegExp") ∧
      infer_ts_type_from_call_expr
          (swc.CallExpr.mk sp (swc.Callee.Expr (swc.Expr.Ident "Boolean"))) = none ∧
      infer_ts_type_from_call_expr (swc.CallExpr.mk sp swc.Callee.Super) = none) := by
  constructor
  · intro call
    obtain ⟨sp, callee⟩ := call
    cases callee with
    | Super => rfl
    | Import => rfl
    | Expr e =>
      cases e
      case Ident sym =>
        by_cases h1 : sym = "Symbol"
        · subst h1; rfl
        · by_cases h2 : sym = "Number"
          · subst h2; rfl
          · by_cases h3 : sym = "String"
            · subst h3; rfl
            · by_cases h4 : sym = "BigInt"
              · subst h4; rfl
              · by_cases h5 : sym = "Date"
                · subst h5; rfl
                · by_cases h6 : sym = "RegExp"
                  · subst h6; rfl
                  · simp [infer_ts_type_from_call_expr, callTableSpec,
                      h1, h2, h3, h4, h5, h6]
      all_goals rfl
  · intro sp
    exact ⟨rfl, rfl, rfl, rfl, rfl, rfl, rfl, rfl⟩
